import Mathlib

/-!
# EByte LoRa E220 driver: register codec, mode control and messaging

A shallow embedding of `src/LoRa_E220.h` and `src/includes/statesNaming.h`.

* The enumerations and the packed register structures are transcribed from the
  two headers.  A C bit-field `uint8_t f : w` is a natural number stored modulo
  `2 ^ w`; a `byte` is a natural number stored modulo `256`.
* The byte image of a packed structure (`#pragma pack(push, 1)`) lists its
  members in declaration order, bit-fields filling their byte from bit 0
  upwards, at the bit positions written next to each member in the header.
* The header only declares the member functions of `class LoRa_E220`; their
  bodies are not part of the sources.  Each such body is modelled from the
  specification and says so in its doc comment.
-/

namespace LoRaE220

/-! ## Constants and enumerations -/

/-- Maximum size of a transmission packet (`#define MAX_SIZE_TX_PACKET 200`). -/
def MAX_SIZE_TX_PACKET : Nat := 200

/-- Address byte reserved for broadcast (`#define BROADCAST_ADDRESS 255`). -/
def BROADCAST_ADDRESS : Nat := 255

/-- Status codes, `enum RESPONSE_STATUS` of `statesNaming.h`. -/
inductive Status where
  | E220_SUCCESS
  | ERR_E220_UNKNOWN
  | ERR_E220_NOT_SUPPORT
  | ERR_E220_NOT_IMPLEMENT
  | ERR_E220_NOT_INITIAL
  | ERR_E220_INVALID_PARAM
  | ERR_E220_DATA_SIZE_NOT_MATCH
  | ERR_E220_BUF_TOO_SMALL
  | ERR_E220_TIMEOUT
  | ERR_E220_HARDWARE
  | ERR_E220_HEAD_NOT_RECOGNIZED
  | ERR_E220_NO_RESPONSE_FROM_DEVICE
  | ERR_E220_WRONG_UART_CONFIG
  | ERR_E220_WRONG_FORMAT
  | ERR_E220_PACKET_TOO_BIG
  deriving DecidableEq, Repr

/-- Numeric value of a status code: `E220_SUCCESS = 1`, then consecutive. -/
def Status.toNat : Status → Nat
  | .E220_SUCCESS => 1
  | .ERR_E220_UNKNOWN => 2
  | .ERR_E220_NOT_SUPPORT => 3
  | .ERR_E220_NOT_IMPLEMENT => 4
  | .ERR_E220_NOT_INITIAL => 5
  | .ERR_E220_INVALID_PARAM => 6
  | .ERR_E220_DATA_SIZE_NOT_MATCH => 7
  | .ERR_E220_BUF_TOO_SMALL => 8
  | .ERR_E220_TIMEOUT => 9
  | .ERR_E220_HARDWARE => 10
  | .ERR_E220_HEAD_NOT_RECOGNIZED => 11
  | .ERR_E220_NO_RESPONSE_FROM_DEVICE => 12
  | .ERR_E220_WRONG_UART_CONFIG => 13
  | .ERR_E220_WRONG_FORMAT => 14
  | .ERR_E220_PACKET_TOO_BIG => 15

/-- Operating modes, `enum MODE_TYPE` (aliases share a constructor). -/
inductive MODE_TYPE where
  | MODE_0_NORMAL
  | MODE_1_WOR_TRANSMITTER
  | MODE_2_WOR_RECEIVER
  | MODE_3_CONFIGURATION
  | MODE_INIT
  deriving DecidableEq, Repr

/-- Numeric value of an operating mode. -/
def MODE_TYPE.toNat : MODE_TYPE → Nat
  | .MODE_0_NORMAL => 0
  | .MODE_1_WOR_TRANSMITTER => 1
  | .MODE_2_WOR_RECEIVER => 2
  | .MODE_3_CONFIGURATION => 3
  | .MODE_INIT => 0xFF

/-- Programming commands, `enum PROGRAM_COMMAND`. -/
def WRITE_CFG_PWR_DWN_SAVE : Nat := 0xC0
/-- Read current device configuration. -/
def READ_CONFIGURATION : Nat := 0xC1
/-- Write configuration temporarily. -/
def WRITE_CFG_PWR_DWN_LOSE : Nat := 0xC2
/-- Invalid command format error code. -/
def WRONG_FORMAT : Nat := 0xFF
/-- Expected response command for configuration reads. -/
def RETURNED_COMMAND : Nat := 0xC1
/-- Special WiFi configuration command. -/
def SPECIAL_WIFI_CONF_COMMAND : Nat := 0xCF

/-- Base configuration register address, `enum REGISTER_ADDRESS`. -/
def REG_ADDRESS_CFG : Nat := 0x00

/-- Complete configuration packet length, `enum PACKET_LENGHT`. -/
def PL_CONFIGURATION : Nat := 0x08

/-- UART baud rates, `enum UART_BPS_RATE`. -/
inductive UART_BPS_RATE where
  | UART_BPS_RATE_1200
  | UART_BPS_RATE_2400
  | UART_BPS_RATE_4800
  | UART_BPS_RATE_9600
  | UART_BPS_RATE_19200
  | UART_BPS_RATE_38400
  | UART_BPS_RATE_57600
  | UART_BPS_RATE_115200
  deriving DecidableEq, Repr

/-- Bits per second of a `UART_BPS_RATE`. -/
def UART_BPS_RATE.toNat : UART_BPS_RATE → Nat
  | .UART_BPS_RATE_1200 => 1200
  | .UART_BPS_RATE_2400 => 2400
  | .UART_BPS_RATE_4800 => 4800
  | .UART_BPS_RATE_9600 => 9600
  | .UART_BPS_RATE_19200 => 19200
  | .UART_BPS_RATE_38400 => 38400
  | .UART_BPS_RATE_57600 => 57600
  | .UART_BPS_RATE_115200 => 115200

/-! ## Packed register structures -/

/-- Speed register, `struct Speed`: `airDataRate :3`, `uartParity :2`,
`uartBaudRate :3`. -/
structure Speed where
  airDataRate : Nat
  uartParity : Nat
  uartBaudRate : Nat
  deriving DecidableEq, Repr

/-- Transmission mode register, `struct TransmissionMode`: `WORPeriod :3`,
`reserved2 :1`, `enableLBT :1`, `reserved :1`, `fixedTransmission :1`,
`enableRSSI :1`. -/
structure TransmissionMode where
  WORPeriod : Nat
  reserved2 : Nat
  enableLBT : Nat
  reserved : Nat
  fixedTransmission : Nat
  enableRSSI : Nat
  deriving DecidableEq, Repr

/-- Option register, `struct Option` of the header: `transmissionPower :2`,
`reserved :3`, `RSSIAmbientNoise :1`, `subPacketSetting :2`. -/
structure OptionReg where
  transmissionPower : Nat
  reserved : Nat
  RSSIAmbientNoise : Nat
  subPacketSetting : Nat
  deriving DecidableEq, Repr

/-- Encryption key, `struct Crypt`. -/
structure Crypt where
  CRYPT_H : Nat
  CRYPT_L : Nat
  deriving DecidableEq, Repr

/-- Complete device configuration, `struct Configuration`, members in
declaration order. -/
structure Configuration where
  COMMAND : Nat
  STARTING_ADDRESS : Nat
  LENGHT : Nat
  ADDH : Nat
  ADDL : Nat
  SPED : Speed
  OPTION : OptionReg
  CHAN : Nat
  TRANSMISSION_MODE : TransmissionMode
  CRYPT : Crypt
  deriving DecidableEq, Repr

/-- The bit-fields of a `Speed` lie within their declared widths 3/2/3. -/
def Speed.Valid (s : Speed) : Prop :=
  s.airDataRate < 8 ∧ s.uartParity < 4 ∧ s.uartBaudRate < 8

/-- The bit-fields of a `TransmissionMode` lie within their declared widths
3/1/1/1/1/1. -/
def TransmissionMode.Valid (t : TransmissionMode) : Prop :=
  t.WORPeriod < 8 ∧ t.reserved2 < 2 ∧ t.enableLBT < 2 ∧ t.reserved < 2 ∧
    t.fixedTransmission < 2 ∧ t.enableRSSI < 2

/-- The bit-fields of an `OptionReg` lie within their declared widths 2/3/1/2. -/
def OptionReg.Valid (o : OptionReg) : Prop :=
  o.transmissionPower < 4 ∧ o.reserved < 8 ∧ o.RSSIAmbientNoise < 2 ∧
    o.subPacketSetting < 4

/-- Both key bytes are bytes. -/
def Crypt.Valid (k : Crypt) : Prop :=
  k.CRYPT_H < 256 ∧ k.CRYPT_L < 256

/-- Every member of a `Configuration` fits its C type: the `byte` members are
below 256 and the bit-fields lie within their declared widths. -/
def Configuration.Valid (c : Configuration) : Prop :=
  c.COMMAND < 256 ∧ c.STARTING_ADDRESS < 256 ∧ c.LENGHT < 256 ∧
    c.ADDH < 256 ∧ c.ADDL < 256 ∧ c.SPED.Valid ∧ c.OPTION.Valid ∧
    c.CHAN < 256 ∧ c.TRANSMISSION_MODE.Valid ∧ c.CRYPT.Valid

instance (s : Speed) : Decidable s.Valid := by
  unfold Speed.Valid; infer_instance

instance (t : TransmissionMode) : Decidable t.Valid := by
  unfold TransmissionMode.Valid; infer_instance

instance (o : OptionReg) : Decidable o.Valid := by
  unfold OptionReg.Valid; infer_instance

instance (k : Crypt) : Decidable k.Valid := by
  unfold Crypt.Valid; infer_instance

instance (c : Configuration) : Decidable c.Valid := by
  unfold Configuration.Valid; infer_instance

/-! ## Frame codec: the byte image of the packed structures -/

/-- Byte image of `struct Speed`: air data rate in bits 0-2, UART parity in
bits 3-4, UART baud rate in bits 5-7. -/
def encodeSpeed (s : Speed) : Nat :=
  s.airDataRate % 8 + 8 * (s.uartParity % 4) + 32 * (s.uartBaudRate % 8)

/-- Reading a byte as a `struct Speed`. -/
def decodeSpeed (b : Nat) : Speed :=
  { airDataRate := b % 8, uartParity := b / 8 % 4, uartBaudRate := b / 32 % 8 }

/-- Byte image of `struct Option`: power in bits 0-1, reserved in bits 2-4,
ambient noise RSSI in bit 5, sub-packet setting in bits 6-7. -/
def encodeOption (o : OptionReg) : Nat :=
  o.transmissionPower % 4 + 4 * (o.reserved % 8) + 32 * (o.RSSIAmbientNoise % 2) +
    64 * (o.subPacketSetting % 4)

/-- Reading a byte as a `struct Option`. -/
def decodeOption (b : Nat) : OptionReg :=
  { transmissionPower := b % 4, reserved := b / 4 % 8, RSSIAmbientNoise := b / 32 % 2,
    subPacketSetting := b / 64 % 4 }

/-- Byte image of `struct TransmissionMode`: WOR period in bits 0-2,
`reserved2` in bit 3, LBT in bit 4, `reserved` in bit 5, fixed transmission in
bit 6, RSSI in bit 7. -/
def encodeTransmissionMode (t : TransmissionMode) : Nat :=
  t.WORPeriod % 8 + 8 * (t.reserved2 % 2) + 16 * (t.enableLBT % 2) + 32 * (t.reserved % 2) +
    64 * (t.fixedTransmission % 2) + 128 * (t.enableRSSI % 2)

/-- Reading a byte as a `struct TransmissionMode`. -/
def decodeTransmissionMode (b : Nat) : TransmissionMode :=
  { WORPeriod := b % 8, reserved2 := b / 8 % 2, enableLBT := b / 16 % 2,
    reserved := b / 32 % 2, fixedTransmission := b / 64 % 2, enableRSSI := b / 128 % 2 }

/-- Byte image of the packed `struct Configuration`, i.e. the bytes that
`(uint8_t *)&configuration` addresses, `sizeof(Configuration)` of them. -/
def encodeConfiguration (c : Configuration) : List Nat :=
  [c.COMMAND % 256, c.STARTING_ADDRESS % 256, c.LENGHT % 256, c.ADDH % 256, c.ADDL % 256,
    encodeSpeed c.SPED, encodeOption c.OPTION, c.CHAN % 256,
    encodeTransmissionMode c.TRANSMISSION_MODE, c.CRYPT.CRYPT_H % 256, c.CRYPT.CRYPT_L % 256]

/-- Reading a byte block as a packed `struct Configuration`.  A block that is
not `sizeof(Configuration)` bytes long is not the image of a `Configuration`
and is refused with `ERR_E220_DATA_SIZE_NOT_MATCH`. -/
def decodeConfiguration : List Nat → Except Status Configuration
  | [b0, b1, b2, b3, b4, b5, b6, b7, b8, b9, b10] =>
    .ok { COMMAND := b0 % 256, STARTING_ADDRESS := b1 % 256, LENGHT := b2 % 256,
          ADDH := b3 % 256, ADDL := b4 % 256, SPED := decodeSpeed (b5 % 256),
          OPTION := decodeOption (b6 % 256), CHAN := b7 % 256,
          TRANSMISSION_MODE := decodeTransmissionMode (b8 % 256),
          CRYPT := { CRYPT_H := b9 % 256, CRYPT_L := b10 % 256 } }
  | _ => .error .ERR_E220_DATA_SIZE_NOT_MATCH

/-- Bits 2-4 of an Option byte: the reserved bits of the Option register. -/
def optionReservedBits (b : Nat) : Nat := b / 4 % 8

/-- Bit 3 of a TransmissionMode byte (`reserved2`). -/
def transmissionModeReservedBit3 (b : Nat) : Nat := b / 8 % 2

/-- Bit 5 of a TransmissionMode byte (`reserved`). -/
def transmissionModeReservedBit5 (b : Nat) : Nat := b / 32 % 2

/-- An Option byte with bits 2-4 cleared. -/
def clearOptionReserved (b : Nat) : Nat := b % 4 + 32 * (b / 32)

/-- A TransmissionMode byte with bits 3 and 5 cleared. -/
def clearTransmissionModeReserved (b : Nat) : Nat :=
  b % 8 + 16 * (b / 16 % 2) + 64 * (b / 64)

/-- An 11-byte block with the reserved bits of its Option byte (offset 6) and
of its TransmissionMode byte (offset 8) cleared; other lists are left alone. -/
def clearReservedBits : List Nat → List Nat
  | [b0, b1, b2, b3, b4, b5, b6, b7, b8, b9, b10] =>
    [b0, b1, b2, b3, b4, b5, clearOptionReserved b6, b7, clearTransmissionModeReserved b8,
      b9, b10]
  | l => l

/-- Two 11-byte blocks differ at most in reserved bits: every byte is a byte,
and the blocks agree once the reserved bits are cleared. -/
def DifferOnlyInReservedBits (x y : List Nat) : Prop :=
  x.length = 11 ∧ y.length = 11 ∧ (∀ b ∈ x, b < 256) ∧ (∀ b ∈ y, b < 256) ∧
    clearReservedBits x = clearReservedBits y

instance (x y : List Nat) : Decidable (DifferOnlyInReservedBits x y) := by
  unfold DifferOnlyInReservedBits; infer_instance

/-- A `Configuration` with its three reserved members set to zero. -/
def Configuration.clearReserved (c : Configuration) : Configuration :=
  { c with
    OPTION := { c.OPTION with reserved := 0 },
    TRANSMISSION_MODE := { c.TRANSMISSION_MODE with reserved2 := 0, reserved := 0 } }

/-- The configuration of the header's example (address 0x0001, channel 23,
9600 bps, 2.4 kbps air rate, zero key), all reserved members zero. -/
def exampleConfiguration : Configuration :=
  { COMMAND := 0xC1, STARTING_ADDRESS := 0, LENGHT := 8, ADDH := 0, ADDL := 1,
    SPED := { airDataRate := 2, uartParity := 0, uartBaudRate := 3 },
    OPTION := { transmissionPower := 0, reserved := 0, RSSIAmbientNoise := 0,
                subPacketSetting := 0 },
    CHAN := 23,
    TRANSMISSION_MODE := { WORPeriod := 3, reserved2 := 0, enableLBT := 0, reserved := 0,
                           fixedTransmission := 1, enableRSSI := 0 },
    CRYPT := { CRYPT_H := 0, CRYPT_L := 0 } }

/-- The example configuration with every reserved member set to all ones. -/
def reservedSetConfiguration : Configuration :=
  { exampleConfiguration with
    OPTION := { exampleConfiguration.OPTION with reserved := 7 },
    TRANSMISSION_MODE :=
      { exampleConfiguration.TRANSMISSION_MODE with reserved2 := 1, reserved := 1 } }

/-- An all-zero 11-byte block. -/
def zeroBlock : List Nat := [0, 0, 0, 0, 0, 0, 0, 0, 0, 0, 0]

/-- The all-zero block with bit 2 of the Option byte (offset 6) set. -/
def reservedBitBlock : List Nat := [0, 0, 0, 0, 0, 0, 4, 0, 0, 0, 0]

/-! ## Driver state

The private members of `class LoRa_E220` that the modelled operations read or
write, together with the collaborators the driver owns: the serial stream, the
two mode-select output lines, the optional busy/ready input line and the
delay primitive. -/

/-- The two mode-select output lines. -/
inductive ModePin where
  | M0
  | M1
  deriving DecidableEq, Repr

/-- One driver instance and its collaborators.

* `auxPin`, `bpsRate`, `mode` are the private members of the header
  (`int8_t auxPin = -1`: not wired).
* `clock` is the time in milliseconds, `aux t` the level of the busy/ready
  input at time `t` (`true`: ready).
* `driven` lists the levels written to the mode-select lines, oldest first.
* `written` lists the bytes written to the serial stream, oldest first;
  `buffered` the received bytes not yet read; `device frame` is what the
  attached module sends back in answer to `frame`. -/
structure LoRa_E220 where
  auxPin : Int
  bpsRate : UART_BPS_RATE
  mode : MODE_TYPE
  clock : Nat
  aux : Nat → Bool
  driven : List (ModePin × Bool)
  written : List Nat
  buffered : List Nat
  device : List Nat → List Nat

/-- Default completion timeout in milliseconds, from the declaration
`waitCompleteResponse(unsigned long timeout = 1000, unsigned int waitNoAux = 100)`. -/
def DEFAULT_TIMEOUT : Nat := 1000

/-- Default second argument of `waitCompleteResponse` in the header. -/
def DEFAULT_WAIT : Nat := 100

/-- Modelled from the spec: part of the missing body of
`LoRa_E220::waitCompleteResponse`.  The instants, counted from the start of a
wait, at which the busy/ready line is polled: every `pollInterval`
milliseconds up to `timeout` (a zero interval polls every millisecond). -/
def pollInstants (timeout pollInterval : Nat) : List Nat :=
  (List.range (timeout / max pollInterval 1 + 1)).map fun k => k * max pollInterval 1

/-- The busy/ready line reads ready at one of the poll instants of a wait that
starts now. -/
def auxReadyWithin (d : LoRa_E220) (timeout pollInterval : Nat) : Bool :=
  (pollInstants timeout pollInterval).any fun e => d.aux (d.clock + e)

/-- The module signals ready for a wait that starts now: the busy/ready line
is not wired (the driver then only sleeps), or it reads ready at a poll. -/
def signalsReady (d : LoRa_E220) (timeout pollInterval : Nat) : Bool :=
  d.auxPin == -1 || auxReadyWithin d timeout pollInterval

/-- Modelled from the spec: the body of `LoRa_E220::waitCompleteResponse`,
declared in the header, is missing.  §4.3: if a busy/ready input is wired,
poll it until ready or until the timeout elapses, sleeping `pollInterval`
between polls; if it is not wired, sleep `timeout` and proceed.  `Timeout` is
returned if the line never reads ready within `timeout`. -/
def waitCompleteResponse (d : LoRa_E220) (timeout pollInterval : Nat) : Status × LoRa_E220 :=
  if d.auxPin ≠ -1 then
    match (pollInstants timeout pollInterval).find? fun e => d.aux (d.clock + e) with
    | some e => (.E220_SUCCESS, { d with clock := d.clock + e })
    | none => (.ERR_E220_TIMEOUT, { d with clock := d.clock + timeout })
  else (.E220_SUCCESS, { d with clock := d.clock + timeout })

/-- Modelled from the spec: the body of `LoRa_E220::checkUARTConfiguration`,
declared in the header, is missing.  §4.2 step 1: configuration mode requires
the 9600 bps link speed. -/
def checkUARTConfiguration (d : LoRa_E220) (mode : MODE_TYPE) : Status :=
  if mode = .MODE_3_CONFIGURATION ∧ d.bpsRate ≠ .UART_BPS_RATE_9600 then
    .ERR_E220_WRONG_UART_CONFIG
  else .E220_SUCCESS

/-- Levels of M0 and M1 for each operating mode, from the header comment of
`enum MODE_TYPE`: MODE_0 (M0=0, M1=0), MODE_1 (M0=1, M1=0), MODE_2 (M0=0,
M1=1), MODE_3 (M0=1, M1=1).  `MODE_INIT` has no pin levels. -/
def modeSelect : MODE_TYPE → Option (Bool × Bool)
  | .MODE_0_NORMAL => some (false, false)
  | .MODE_1_WOR_TRANSMITTER => some (true, false)
  | .MODE_2_WOR_RECEIVER => some (false, true)
  | .MODE_3_CONFIGURATION => some (true, true)
  | .MODE_INIT => none

/-- Modelled from the spec: the body of `LoRa_E220::setMode`, declared in the
header, is missing.  §4.2: (1) configuration mode at a link speed other than
9600 bps fails with `WrongUartConfig` and the call does not proceed; (2) the
mode-select lines are driven to the levels of the mode; (3) the driver waits
for ready, bounded by the settle timeout; (4) on success the target is
recorded, on timeout `Timeout` is returned and the record is left unchanged.
The spec gives no pin levels for `MODE_INIT`; such a request is refused with
`ERR_E220_INVALID_PARAM` before any line is driven. -/
def setMode (d : LoRa_E220) (mode : MODE_TYPE) : Status × LoRa_E220 :=
  match checkUARTConfiguration d mode with
  | .E220_SUCCESS =>
    match modeSelect mode with
    | none => (.ERR_E220_INVALID_PARAM, d)
    | some (m0, m1) =>
      let res := waitCompleteResponse
        { d with driven := d.driven ++ [(ModePin.M0, m0), (ModePin.M1, m1)] }
        DEFAULT_TIMEOUT DEFAULT_WAIT
      if res.1 = .E220_SUCCESS then (.E220_SUCCESS, { res.2 with mode := mode })
      else res
  | e => (e, d)

/-- Modelled from the spec: the body of `LoRa_E220::getMode` is missing.
§4.2: the last successfully recorded mode, a software-side cache. -/
def getMode (d : LoRa_E220) : MODE_TYPE := d.mode

/-- Modelled from the spec: the body of `LoRa_E220::cleanUARTBuffer` is
missing.  §4.3: stale bytes left in the receive buffer are discarded. -/
def cleanUARTBuffer (d : LoRa_E220) : LoRa_E220 :=
  { d with buffered := [] }

/-- Modelled from the spec: the body of `LoRa_E220::sendStruct`, declared as
`Status sendStruct(void *structureManaged, uint16_t size_)`, is missing.
§4.3: writes the byte sequence to the transport, then invokes the completion
wait.  What the module answers is queued in the receive buffer. -/
def sendStruct (d : LoRa_E220) (structureManaged : List Nat) (size_ : Nat) :
    Status × LoRa_E220 :=
  waitCompleteResponse
    { d with
      written := d.written ++ structureManaged.take (size_ % 65536),
      buffered := d.buffered ++ d.device (structureManaged.take (size_ % 65536)) }
    DEFAULT_TIMEOUT DEFAULT_WAIT

/-- Modelled from the spec: the body of `LoRa_E220::receiveStruct` is missing.
§4.3: reads exactly `size_` bytes and validates that the leading command byte
equals the expected response command; a mismatch yields `HeadNotRecognized`.
No byte at all is `NoResponseFromDevice`, too few bytes `DataSizeMismatch`. -/
def receiveStruct (d : LoRa_E220) (size_ : Nat) : Except Status (List Nat) × LoRa_E220 :=
  let block := d.buffered.take size_
  let d' := { d with buffered := d.buffered.drop size_ }
  if block.length = 0 then (.error .ERR_E220_NO_RESPONSE_FROM_DEVICE, d')
  else if block.length ≠ size_ then (.error .ERR_E220_DATA_SIZE_NOT_MATCH, d')
  else if block.head? ≠ some RETURNED_COMMAND then (.error .ERR_E220_HEAD_NOT_RECOGNIZED, d')
  else (.ok block, d')

/-- Modelled from the spec: part of the missing body of `getConfiguration`.
§6: the frame of a full-block read is `[command][startAddr][length]` with the
read command, the base register address and the block length. -/
def readConfigurationCommand : List Nat :=
  [READ_CONFIGURATION, REG_ADDRESS_CFG, PL_CONFIGURATION]

/-- Modelled from the spec: the first step of `getConfiguration`, §4.5:
switch the mode controller to `Configuration` if not already there. -/
def enterConfigurationMode (d : LoRa_E220) : Status × LoRa_E220 :=
  if d.mode = .MODE_3_CONFIGURATION then (.E220_SUCCESS, d)
  else setMode d .MODE_3_CONFIGURATION

/-- Modelled from the spec: the second step of `getConfiguration`, §4.3 and
§4.5: discard stale received bytes, then write the full-block read command
and wait for completion. -/
def requestConfiguration (d : LoRa_E220) : Status × LoRa_E220 :=
  sendStruct (cleanUARTBuffer d) readConfigurationCommand 3

/-- Modelled from the spec: the body of `LoRa_E220::getConfiguration` is
missing.  §4.5: switch to configuration mode if not already there, issue a
full-block read through the transport, decode the 11-byte answer, return the
result plus status.  §8: on `HeadNotRecognized` no Configuration is returned. -/
def getConfiguration (d : LoRa_E220) : (Status × Option Configuration) × LoRa_E220 :=
  let entered := enterConfigurationMode d
  if entered.1 ≠ .E220_SUCCESS then ((entered.1, none), entered.2)
  else
    let requested := requestConfiguration entered.2
    if requested.1 ≠ .E220_SUCCESS then ((requested.1, none), requested.2)
    else
      match receiveStruct requested.2 (PL_CONFIGURATION + 3) with
      | (.ok block, d') =>
        match decodeConfiguration block with
        | .ok c => ((.E220_SUCCESS, some c), d')
        | .error e => ((e, none), d')
      | (.error e, d') => ((e, none), d')

/-- Modelled from the spec: the body of
`sendMessage(const void *message, const uint8_t size)` is missing.  §4.4:
transparent send, no address header; fails with `PacketTooBig` if the payload
length exceeds 200 bytes.  §7: an oversized payload is rejected before any
byte is written. -/
def sendMessage (d : LoRa_E220) (message : List Nat) (size : Nat) : Status × LoRa_E220 :=
  if MAX_SIZE_TX_PACKET < size % 256 then (.ERR_E220_PACKET_TOO_BIG, d)
  else sendStruct d message (size % 256)

/-- Modelled from the spec: part of the missing body of `sendFixedMessage`.
§6: the frame of a fixed transmission is `[ADDH][ADDL][CHAN]` followed by the
payload, the `size` bytes at `message`. -/
def fixedFrame (ADDH ADDL CHAN : Nat) (message : List Nat) (size : Nat) : List Nat :=
  [ADDH % 256, ADDL % 256, CHAN % 256] ++ message.take (size % 256)

/-- Modelled from the spec: the body of `sendFixedMessage(byte ADDH, byte ADDL,
byte CHAN, const void *message, const uint8_t size)` is missing.  §4.4:
prepends the 3-byte address header to the payload before transmission; the
header counts against the 200-byte ceiling; fails with `PacketTooBig` beyond
that.  The frame length `size + 3` is passed on as a `uint16_t`. -/
def sendFixedMessage (d : LoRa_E220) (ADDH ADDL CHAN : Nat) (message : List Nat) (size : Nat) :
    Status × LoRa_E220 :=
  if MAX_SIZE_TX_PACKET < size % 256 + 3 then (.ERR_E220_PACKET_TOO_BIG, d)
  else sendStruct d (fixedFrame ADDH ADDL CHAN message size) ((size % 256 + 3) % 65536)

/-- Modelled from the spec: the body of `sendBroadcastFixedMessage(byte CHAN,
const void *message, const uint8_t size)` is missing.  §4.4: identical to the
fixed send with both address bytes forced to the broadcast value. -/
def sendBroadcastFixedMessage (d : LoRa_E220) (CHAN : Nat) (message : List Nat) (size : Nat) :
    Status × LoRa_E220 :=
  sendFixedMessage d BROADCAST_ADDRESS BROADCAST_ADDRESS CHAN message size

/-- A driver at 9600 bps in normal mode whose busy/ready line is not wired and
whose module answers nothing. -/
def unwiredDriver : LoRa_E220 :=
  { auxPin := -1, bpsRate := .UART_BPS_RATE_9600, mode := .MODE_0_NORMAL, clock := 0,
    aux := fun _ => false, driven := [], written := [], buffered := [],
    device := fun _ => [] }

/-- A driver whose busy/ready line is wired to pin 4 and reads ready from
250 ms on. -/
def readyDriver : LoRa_E220 :=
  { unwiredDriver with auxPin := 4, aux := fun t => decide (250 ≤ t) }

/-- A driver whose busy/ready line is wired to pin 4 and never reads ready. -/
def busyDriver : LoRa_E220 :=
  { unwiredDriver with auxPin := 4 }

/-- A driver at 19200 bps, busy/ready line not wired. -/
def fastDriver : LoRa_E220 :=
  { unwiredDriver with bpsRate := .UART_BPS_RATE_19200 }

/-- A driver already in configuration mode whose module answers a full-block
read with the wrong-format sentinel as leading byte. -/
def wrongHeadDriver : LoRa_E220 :=
  { unwiredDriver with
    mode := .MODE_3_CONFIGURATION,
    device := fun _ => [WRONG_FORMAT, 0, 8, 0, 1, 0x62, 0, 23, 0x43, 0, 0] }

/-! ## Register map, packet lengths and sizes -/

/-- Speed configuration register, `enum REGISTER_ADDRESS`. -/
def REG_ADDRESS_SPED : Nat := 0x02
/-- Transmission mode register. -/
def REG_ADDRESS_TRANS_MODE : Nat := 0x03
/-- Channel register. -/
def REG_ADDRESS_CHANNEL : Nat := 0x04
/-- Option register. -/
def REG_ADDRESS_OPTION : Nat := 0x05
/-- Encryption register. -/
def REG_ADDRESS_CRYPT : Nat := 0x06
/-- Product identification register. -/
def REG_ADDRESS_PID : Nat := 0x08

/-- The seven register addresses in the order of `enum REGISTER_ADDRESS`. -/
def registerAddresses : List Nat :=
  [REG_ADDRESS_CFG, REG_ADDRESS_SPED, REG_ADDRESS_TRANS_MODE, REG_ADDRESS_CHANNEL,
    REG_ADDRESS_OPTION, REG_ADDRESS_CRYPT, REG_ADDRESS_PID]

/-- Speed configuration packet length, `enum PACKET_LENGHT`. -/
def PL_SPED : Nat := 0x01
/-- Option configuration packet length. -/
def PL_OPTION : Nat := 0x01
/-- Transmission mode packet length. -/
def PL_TRANSMISSION_MODE : Nat := 0x01
/-- Channel configuration packet length. -/
def PL_CHANNEL : Nat := 0x01
/-- Encryption key packet length. -/
def PL_CRYPT : Nat := 0x02
/-- Product identification packet length. -/
def PL_PID : Nat := 0x03

/-- Declared widths of the bit-fields of `struct Speed`, in declaration order. -/
def Speed.bitWidths : List Nat := [3, 2, 3]

/-- Declared widths of the bit-fields of `struct Option`, in declaration order. -/
def OptionReg.bitWidths : List Nat := [2, 3, 1, 2]

/-- Declared widths of the bit-fields of `struct TransmissionMode`, in
declaration order. -/
def TransmissionMode.bitWidths : List Nat := [3, 1, 1, 1, 1, 1]

/-- Size in bytes of a packed structure that consists of `uint8_t` bit-fields
of the given widths filling consecutive bits. -/
def sizeofBitFields (widths : List Nat) : Nat := (widths.sum + 7) / 8

/-- Byte image of `struct Crypt`: high byte, then low byte. -/
def encodeCrypt (k : Crypt) : List Nat := [k.CRYPT_H % 256, k.CRYPT_L % 256]

/-- Module information, `struct ModuleInformation`, members in declaration
order. -/
structure ModuleInformation where
  COMMAND : Nat
  STARTING_ADDRESS : Nat
  LENGHT : Nat
  model : Nat
  version : Nat
  features : Nat
  deriving DecidableEq, Repr

/-- Byte image of the packed `struct ModuleInformation`. -/
def encodeModuleInformation (m : ModuleInformation) : List Nat :=
  [m.COMMAND % 256, m.STARTING_ADDRESS % 256, m.LENGHT % 256, m.model % 256, m.version % 256,
    m.features % 256]

/-- Configuration message, `struct ConfigurationMessage`: two special command
bytes with their in-class initialisers, then the flexible array `message[]`. -/
structure ConfigurationMessage where
  specialCommand1 : Nat := 0xCF
  specialCommand2 : Nat := 0xCF
  message : List Nat := []
  deriving DecidableEq, Repr

/-- Byte image of a `ConfigurationMessage`: the two special command bytes, then
the message bytes. -/
def encodeConfigurationMessage (m : ConfigurationMessage) : List Nat :=
  [m.specialCommand1 % 256, m.specialCommand2 % 256] ++ m.message.map fun b => b % 256

/-! ## Enumerated register values used below -/

/-- Air data rate 2.4 kbps (default), `enum AIR_DATA_RATE`. -/
def AIR_DATA_RATE_010_24 : Nat := 0b010
/-- Parity 8N1 (default), `enum E220_UART_PARITY`. -/
def MODE_00_8N1 : Nat := 0b00
/-- UART speed 9600 bps (default), `enum UART_BPS_TYPE`. -/
def UART_BPS_9600 : Nat := 0b011

/-! ## Mode values and pin levels -/

/-- Level of M0 read off a mode value: bit 0. -/
def modeBit0 (mode : MODE_TYPE) : Bool := mode.toNat % 2 == 1

/-- Level of M1 read off a mode value: bit 1. -/
def modeBit1 (mode : MODE_TYPE) : Bool := mode.toNat / 2 % 2 == 1

/-- A driver as the class declaration initialises it: `mode` has the in-class
initialiser `MODE_TYPE mode = MODE_0_NORMAL`; the link speed and the busy/ready
pin are the constructor arguments (`bpsRate = UART_BPS_RATE_9600` and
`auxPin = -1` when not given); nothing has been driven, written or received. -/
def LoRa_E220.create (auxPin : Int) (bpsRate : UART_BPS_RATE) (aux : Nat → Bool)
    (device : List Nat → List Nat) : LoRa_E220 :=
  { auxPin := auxPin, bpsRate := bpsRate, mode := .MODE_0_NORMAL, clock := 0, aux := aux,
    driven := [], written := [], buffered := [], device := device }

/-! ## Status codes and their descriptions -/

/-- The status codes in the order of `enum RESPONSE_STATUS` (`SUCCESS`, present
off STM32, is a second name of the value 1). -/
def Status.all : List Status :=
  [.E220_SUCCESS, .ERR_E220_UNKNOWN, .ERR_E220_NOT_SUPPORT, .ERR_E220_NOT_IMPLEMENT,
    .ERR_E220_NOT_INITIAL, .ERR_E220_INVALID_PARAM, .ERR_E220_DATA_SIZE_NOT_MATCH,
    .ERR_E220_BUF_TOO_SMALL, .ERR_E220_TIMEOUT, .ERR_E220_HARDWARE,
    .ERR_E220_HEAD_NOT_RECOGNIZED, .ERR_E220_NO_RESPONSE_FROM_DEVICE,
    .ERR_E220_WRONG_UART_CONFIG, .ERR_E220_WRONG_FORMAT, .ERR_E220_PACKET_TOO_BIG]

/-- Description of a status byte, `getResponseDescriptionByParams(byte status)`
of `statesNaming.h`: one `case` per listed code, `default` otherwise. -/
def getResponseDescriptionByParams (status : Nat) : String :=
  if status = Status.E220_SUCCESS.toNat then "Success"
  else if status = Status.ERR_E220_UNKNOWN.toNat then "Unknown"
  else if status = Status.ERR_E220_NOT_SUPPORT.toNat then "Not support!"
  else if status = Status.ERR_E220_NOT_IMPLEMENT.toNat then "Not implement"
  else if status = Status.ERR_E220_NOT_INITIAL.toNat then "Not initial!"
  else if status = Status.ERR_E220_INVALID_PARAM.toNat then "Invalid param!"
  else if status = Status.ERR_E220_DATA_SIZE_NOT_MATCH.toNat then "Data size not match!"
  else if status = Status.ERR_E220_BUF_TOO_SMALL.toNat then "Buff too small!"
  else if status = Status.ERR_E220_TIMEOUT.toNat then "Timeout!!"
  else if status = Status.ERR_E220_HARDWARE.toNat then "Hardware error!"
  else if status = Status.ERR_E220_HEAD_NOT_RECOGNIZED.toNat then
    "Save mode returned not recognized!"
  else if status = Status.ERR_E220_NO_RESPONSE_FROM_DEVICE.toNat then
    "No response from device! (Check wiring)"
  else if status = Status.ERR_E220_WRONG_UART_CONFIG.toNat then
    "Wrong UART configuration! (BPS must be 9600 for configuration)"
  else if status = Status.ERR_E220_PACKET_TOO_BIG.toNat then
    "The device support only 200byte of data transmission!"
  else "Invalid status!"

/-- Result of one operation, `struct ResponseStatus`. -/
structure ResponseStatus where
  code : Status
  deriving DecidableEq, Repr

/-- Description of a result, `ResponseStatus::getResponseDescription`. -/
def ResponseStatus.getResponseDescription (r : ResponseStatus) : String :=
  getResponseDescriptionByParams r.code.toNat

/-- The status codes that have a `case` of their own in
`getResponseDescriptionByParams`: all but `ERR_E220_WRONG_FORMAT`. -/
def Status.described : List Status :=
  [.E220_SUCCESS, .ERR_E220_UNKNOWN, .ERR_E220_NOT_SUPPORT, .ERR_E220_NOT_IMPLEMENT,
    .ERR_E220_NOT_INITIAL, .ERR_E220_INVALID_PARAM, .ERR_E220_DATA_SIZE_NOT_MATCH,
    .ERR_E220_BUF_TOO_SMALL, .ERR_E220_TIMEOUT, .ERR_E220_HARDWARE,
    .ERR_E220_HEAD_NOT_RECOGNIZED, .ERR_E220_NO_RESPONSE_FROM_DEVICE,
    .ERR_E220_WRONG_UART_CONFIG, .ERR_E220_PACKET_TOO_BIG]

/-- The four operating modes, in the order of `enum MODE_TYPE`. -/
def operatingModes : List MODE_TYPE :=
  [.MODE_0_NORMAL, .MODE_1_WOR_TRANSMITTER, .MODE_2_WOR_RECEIVER, .MODE_3_CONFIGURATION]

/-! ## Enumerations of `statesNaming.h` and their descriptions -/

/-- Parity 8O1, `enum E220_UART_PARITY`. -/
def MODE_01_8O1 : Nat := 0b01
/-- Parity 8E1. -/
def MODE_10_8E1 : Nat := 0b10
/-- Parity 8N1 (alternate). -/
def MODE_11_8N1 : Nat := 0b11

/-- Description of a UART parity code, `getUARTParityDescriptionByParams(byte uartParity)`. -/
def getUARTParityDescriptionByParams (uartParity : Nat) : String :=
  if uartParity = MODE_00_8N1 then "8N1 (Default)"
  else if uartParity = MODE_01_8O1 then "8O1"
  else if uartParity = MODE_10_8E1 then "8E1"
  else if uartParity = MODE_11_8N1 then "8N1 (equal to 00"
  else "Invalid UART Parity!"

/-- UART speed code of `enum UART_BPS_TYPE`. -/
def UART_BPS_1200 : Nat := 0b000
/-- UART speed code of `enum UART_BPS_TYPE`. -/
def UART_BPS_2400 : Nat := 0b001
/-- UART speed code of `enum UART_BPS_TYPE`. -/
def UART_BPS_4800 : Nat := 0b010
/-- UART speed code of `enum UART_BPS_TYPE`. -/
def UART_BPS_19200 : Nat := 0b100
/-- UART speed code of `enum UART_BPS_TYPE`. -/
def UART_BPS_38400 : Nat := 0b101
/-- UART speed code of `enum UART_BPS_TYPE`. -/
def UART_BPS_57600 : Nat := 0b110
/-- UART speed code of `enum UART_BPS_TYPE`. -/
def UART_BPS_115200 : Nat := 0b111

/-- Description of a UART speed code, `getUARTBaudRateDescriptionByParams(byte uartBaudRate)`. -/
def getUARTBaudRateDescriptionByParams (uartBaudRate : Nat) : String :=
  if uartBaudRate = UART_BPS_1200 then "1200bps"
  else if uartBaudRate = UART_BPS_2400 then "2400bps"
  else if uartBaudRate = UART_BPS_4800 then "4800bps"
  else if uartBaudRate = UART_BPS_9600 then "9600bps (default)"
  else if uartBaudRate = UART_BPS_19200 then "19200bps"
  else if uartBaudRate = UART_BPS_38400 then "38400bps"
  else if uartBaudRate = UART_BPS_57600 then "57600bps"
  else if uartBaudRate = UART_BPS_115200 then "115200bps"
  else "Invalid UART Baud Rate!"

/-- Air data rate code of `enum AIR_DATA_RATE`. -/
def AIR_DATA_RATE_000_24 : Nat := 0b000
/-- Air data rate code of `enum AIR_DATA_RATE`. -/
def AIR_DATA_RATE_001_24 : Nat := 0b001
/-- Air data rate code of `enum AIR_DATA_RATE`. -/
def AIR_DATA_RATE_011_48 : Nat := 0b011
/-- Air data rate code of `enum AIR_DATA_RATE`. -/
def AIR_DATA_RATE_100_96 : Nat := 0b100
/-- Air data rate code of `enum AIR_DATA_RATE`. -/
def AIR_DATA_RATE_101_192 : Nat := 0b101
/-- Air data rate code of `enum AIR_DATA_RATE`. -/
def AIR_DATA_RATE_110_384 : Nat := 0b110
/-- Air data rate code of `enum AIR_DATA_RATE`. -/
def AIR_DATA_RATE_111_625 : Nat := 0b111

/-- Description of an air data rate code, `getAirDataRateDescriptionByParams(byte airDataRate)`. -/
def getAirDataRateDescriptionByParams (airDataRate : Nat) : String :=
  if airDataRate = AIR_DATA_RATE_000_24 then "2.4kbps"
  else if airDataRate = AIR_DATA_RATE_001_24 then "2.4kbps"
  else if airDataRate = AIR_DATA_RATE_010_24 then "2.4kbps (default)"
  else if airDataRate = AIR_DATA_RATE_011_48 then "4.8kbps"
  else if airDataRate = AIR_DATA_RATE_100_96 then "9.6kbps"
  else if airDataRate = AIR_DATA_RATE_101_192 then "19.2kbps"
  else if airDataRate = AIR_DATA_RATE_110_384 then "38.4kbps"
  else if airDataRate = AIR_DATA_RATE_111_625 then "62.5kbps"
  else "Invalid Air Data Rate!"

/-- Sub-packet code of `enum SUB_PACKET_SETTING`. -/
def SPS_200_00 : Nat := 0b00
/-- Sub-packet code of `enum SUB_PACKET_SETTING`. -/
def SPS_128_01 : Nat := 0b01
/-- Sub-packet code of `enum SUB_PACKET_SETTING`. -/
def SPS_064_10 : Nat := 0b10
/-- Sub-packet code of `enum SUB_PACKET_SETTING`. -/
def SPS_032_11 : Nat := 0b11

/-- Description of a sub-packet code, `getSubPacketSettingByParams(byte subPacketSetting)`. -/
def getSubPacketSettingByParams (subPacketSetting : Nat) : String :=
  if subPacketSetting = SPS_200_00 then "200bytes (default)"
  else if subPacketSetting = SPS_128_01 then "128bytes"
  else if subPacketSetting = SPS_064_10 then "64bytes"
  else if subPacketSetting = SPS_032_11 then "32bytes"
  else "Invalid Sub Packet Setting!"

/-- Ambient noise RSSI enabled, `enum RSSI_AMBIENT_NOISE_ENABLE`. -/
def RSSI_AMBIENT_NOISE_ENABLED : Nat := 0b1
/-- Ambient noise RSSI disabled. -/
def RSSI_AMBIENT_NOISE_DISABLED : Nat := 0b0

/-- Description of the ambient noise RSSI flag, `getRSSIAmbientNoiseEnableByParams(byte rssiAmbientNoiseEnabled)`. -/
def getRSSIAmbientNoiseEnableByParams (rssiAmbientNoiseEnabled : Nat) : String :=
  if rssiAmbientNoiseEnabled = RSSI_AMBIENT_NOISE_ENABLED then "Enabled"
  else if rssiAmbientNoiseEnabled = RSSI_AMBIENT_NOISE_DISABLED then "Disabled (default)"
  else "Invalid RSSI Ambient Noise enabled!"

/-- WOR period code of `enum WOR_PERIOD`. -/
def WOR_500_000 : Nat := 0b000
/-- WOR period code of `enum WOR_PERIOD`. -/
def WOR_1000_001 : Nat := 0b001
/-- WOR period code of `enum WOR_PERIOD`. -/
def WOR_1500_010 : Nat := 0b010
/-- WOR period code of `enum WOR_PERIOD`. -/
def WOR_2000_011 : Nat := 0b011
/-- WOR period code of `enum WOR_PERIOD`. -/
def WOR_2500_100 : Nat := 0b100
/-- WOR period code of `enum WOR_PERIOD`. -/
def WOR_3000_101 : Nat := 0b101
/-- WOR period code of `enum WOR_PERIOD`. -/
def WOR_3500_110 : Nat := 0b110
/-- WOR period code of `enum WOR_PERIOD`. -/
def WOR_4000_111 : Nat := 0b111

/-- Description of a WOR period code, `getWORPeriodByParams(byte WORPeriod)`. -/
def getWORPeriodByParams (WORPeriod : Nat) : String :=
  if WORPeriod = WOR_500_000 then "500ms"
  else if WORPeriod = WOR_1000_001 then "1000ms"
  else if WORPeriod = WOR_1500_010 then "1500ms"
  else if WORPeriod = WOR_2000_011 then "2000ms (default)"
  else if WORPeriod = WOR_2500_100 then "2500ms"
  else if WORPeriod = WOR_3000_101 then "3000ms"
  else if WORPeriod = WOR_3500_110 then "3500ms"
  else if WORPeriod = WOR_4000_111 then "4000ms"
  else "Invalid WOR period!"

/-- Listen before talk enabled, `enum LBT_ENABLE_BYTE`. -/
def LBT_ENABLED : Nat := 0b1
/-- Listen before talk disabled. -/
def LBT_DISABLED : Nat := 0b0

/-- Description of the LBT flag, `getLBTEnableByteByParams(byte LBTEnableByte)`. -/
def getLBTEnableByteByParams (LBTEnableByte : Nat) : String :=
  if LBTEnableByte = LBT_ENABLED then "Enabled"
  else if LBTEnableByte = LBT_DISABLED then "Disabled (default)"
  else "Invalid LBT enable byte!"

/-- RSSI byte enabled, `enum RSSI_ENABLE_BYTE`. -/
def RSSI_ENABLED : Nat := 0b1
/-- RSSI byte disabled. -/
def RSSI_DISABLED : Nat := 0b0

/-- Description of the RSSI flag, `getRSSIEnableByteByParams(byte RSSIEnableByte)`. -/
def getRSSIEnableByteByParams (RSSIEnableByte : Nat) : String :=
  if RSSIEnableByte = RSSI_ENABLED then "Enabled"
  else if RSSIEnableByte = RSSI_DISABLED then "Disabled (default)"
  else "Invalid RSSI enable byte!"

/-- Transparent transmission, `enum FIDEX_TRANSMISSION`. -/
def FT_TRANSPARENT_TRANSMISSION : Nat := 0b0
/-- Fixed transmission. -/
def FT_FIXED_TRANSMISSION : Nat := 0b1

/-- Description of the addressing flag, `getFixedTransmissionDescriptionByParams(byte fixedTransmission)`. -/
def getFixedTransmissionDescriptionByParams (fixedTransmission : Nat) : String :=
  if fixedTransmission = FT_TRANSPARENT_TRANSMISSION then "Transparent transmission (default)"
  else if fixedTransmission = FT_FIXED_TRANSMISSION then "Fixed transmission (first three bytes can be used as high/low address and channel)"
  else "Invalid fixed transmission param!"

/-- Device variant selected at compile time: `#ifdef E220_22`, `#elif
defined(E220_30)`, or neither. -/
inductive DeviceVariant where
  | E220_22
  | E220_30
  | unselected
  deriving DecidableEq, Repr

/-- Power code 22 dBm, `enum TRANSMISSION_POWER` of the 22 dBm variant and of
the branch with no variant selected. -/
def POWER_22 : Nat := 0b00
/-- Power code 17 dBm. -/
def POWER_17 : Nat := 0b01
/-- Power code 13 dBm. -/
def POWER_13 : Nat := 0b10
/-- Power code 10 dBm. -/
def POWER_10 : Nat := 0b11
/-- Power code 30 dBm, `enum TRANSMISSION_POWER` of the 30 dBm variant. -/
def POWER_30 : Nat := 0b00
/-- Power code 27 dBm. -/
def POWER_27 : Nat := 0b01
/-- Power code 24 dBm. -/
def POWER_24 : Nat := 0b10
/-- Power code 21 dBm. -/
def POWER_21 : Nat := 0b11

/-- Description of a power code, `getTransmissionPowerDescriptionByParams(byte
transmissionPower)`, one definition per preprocessor branch. -/
def getTransmissionPowerDescriptionByParams (variant : DeviceVariant)
    (transmissionPower : Nat) : String :=
  match variant with
  | .E220_22 =>
    if transmissionPower = POWER_22 then "22dBm (Default)"
    else if transmissionPower = POWER_17 then "17dBm"
    else if transmissionPower = POWER_13 then "13dBm"
    else if transmissionPower = POWER_10 then "10dBm"
    else "Invalid transmission power param"
  | .E220_30 =>
    if transmissionPower = POWER_30 then "30dBm (Default)"
    else if transmissionPower = POWER_27 then "27dBm"
    else if transmissionPower = POWER_24 then "24dBm"
    else if transmissionPower = POWER_21 then "21dBm"
    else "Invalid transmission power param"
  | .unselected =>
    if transmissionPower = POWER_22 then "22dBm (Default)"
    else if transmissionPower = POWER_17 then "17dBm"
    else if transmissionPower = POWER_13 then "13dBm"
    else if transmissionPower = POWER_10 then "10dBm"
    else "Invalid transmission power param"

/-- The dBm levels that the enumerators of `TRANSMISSION_POWER` name, listed by
power code 0..3, for each preprocessor branch. -/
def transmissionPowerLevels : DeviceVariant → List Nat
  | .E220_22 => [22, 17, 13, 10]
  | .E220_30 => [30, 27, 24, 21]
  | .unselected => [22, 17, 13, 10]

/-- The power codes that the enumerators of `TRANSMISSION_POWER` take, in
declaration order, for each preprocessor branch. -/
def transmissionPowerCodes : DeviceVariant → List Nat
  | .E220_22 => [POWER_22, POWER_17, POWER_13, POWER_10]
  | .E220_30 => [POWER_30, POWER_27, POWER_24, POWER_21]
  | .unselected => [POWER_22, POWER_17, POWER_13, POWER_10]

/-- Description methods of `struct Speed`. -/
def Speed.getAirDataRateDescription (s : Speed) : String :=
  getAirDataRateDescriptionByParams s.airDataRate

/-- UART parity description of a `Speed`. -/
def Speed.getUARTParityDescription (s : Speed) : String :=
  getUARTParityDescriptionByParams s.uartParity

/-- UART baud rate description of a `Speed`. -/
def Speed.getUARTBaudRateDescription (s : Speed) : String :=
  getUARTBaudRateDescriptionByParams s.uartBaudRate

/-- WOR period description of a `TransmissionMode`. -/
def TransmissionMode.getWORPeriodByParamsDescription (t : TransmissionMode) : String :=
  getWORPeriodByParams t.WORPeriod

/-- LBT description of a `TransmissionMode`. -/
def TransmissionMode.getLBTEnableByteDescription (t : TransmissionMode) : String :=
  getLBTEnableByteByParams t.enableLBT

/-- Addressing description of a `TransmissionMode`. -/
def TransmissionMode.getFixedTransmissionDescription (t : TransmissionMode) : String :=
  getFixedTransmissionDescriptionByParams t.fixedTransmission

/-- RSSI description of a `TransmissionMode`. -/
def TransmissionMode.getRSSIEnableByteDescription (t : TransmissionMode) : String :=
  getRSSIEnableByteByParams t.enableRSSI

/-- Power description of an `Option` register. -/
def OptionReg.getTransmissionPowerDescription (variant : DeviceVariant) (o : OptionReg) :
    String :=
  getTransmissionPowerDescriptionByParams variant o.transmissionPower

/-- Ambient noise RSSI description of an `Option` register. -/
def OptionReg.getRSSIAmbientNoiseEnable (o : OptionReg) : String :=
  getRSSIAmbientNoiseEnableByParams o.RSSIAmbientNoise

/-- Sub-packet description of an `Option` register. -/
def OptionReg.getSubPacketSetting (o : OptionReg) : String :=
  getSubPacketSettingByParams o.subPacketSetting

/-- The baud rates of `enum UART_BPS_RATE` in declaration order. -/
def uartBpsRates : List Nat :=
  [UART_BPS_RATE.UART_BPS_RATE_1200.toNat, UART_BPS_RATE.UART_BPS_RATE_2400.toNat,
    UART_BPS_RATE.UART_BPS_RATE_4800.toNat, UART_BPS_RATE.UART_BPS_RATE_9600.toNat,
    UART_BPS_RATE.UART_BPS_RATE_19200.toNat, UART_BPS_RATE.UART_BPS_RATE_38400.toNat,
    UART_BPS_RATE.UART_BPS_RATE_57600.toNat, UART_BPS_RATE.UART_BPS_RATE_115200.toNat]

/-! ## Frequency band and channel description -/

/-- Frequency band selected at compile time, the `#ifdef` chain of
`statesNaming.h`; `unselected` is its `#else` branch. -/
inductive FrequencyBand where
  | FREQUENCY_433
  | FREQUENCY_400
  | FREQUENCY_230
  | FREQUENCY_868
  | FREQUENCY_900
  | FREQUENCY_915
  | unselected
  deriving DecidableEq, Repr

/-- Base frequency in MHz, `#define OPERATING_FREQUENCY`. -/
def OPERATING_FREQUENCY : FrequencyBand → Nat
  | .FREQUENCY_433 => 410
  | .FREQUENCY_400 => 410
  | .FREQUENCY_230 => 220
  | .FREQUENCY_868 => 850
  | .FREQUENCY_900 => 850
  | .FREQUENCY_915 => 900
  | .unselected => 410

/-- Channel description, `Configuration::getChannelDescription`:
`String(this->CHAN + OPERATING_FREQUENCY) + F("MHz")`; the `byte` is promoted
to `int` before the addition. -/
def Configuration.getChannelDescription (band : FrequencyBand) (c : Configuration) : String :=
  toString (c.CHAN + OPERATING_FREQUENCY band) ++ "MHz"

/-! ## Module information and response container -/

/-- A `ModuleInformation` as its in-class initialisers leave it: every member 0. -/
def defaultModuleInformation : ModuleInformation :=
  { COMMAND := 0, STARTING_ADDRESS := 0, LENGHT := 0, model := 0, version := 0, features := 0 }

/-- Every member of a `ModuleInformation` is a byte. -/
def ModuleInformation.Valid (m : ModuleInformation) : Prop :=
  m.COMMAND < 256 ∧ m.STARTING_ADDRESS < 256 ∧ m.LENGHT < 256 ∧ m.model < 256 ∧
    m.version < 256 ∧ m.features < 256

instance (m : ModuleInformation) : Decidable m.Valid := by
  unfold ModuleInformation.Valid; infer_instance

/-- Reading a byte block as a packed `struct ModuleInformation`; a block of
another length is refused with `ERR_E220_DATA_SIZE_NOT_MATCH`. -/
def decodeModuleInformation : List Nat → Except Status ModuleInformation
  | [b0, b1, b2, b3, b4, b5] =>
    .ok { COMMAND := b0 % 256, STARTING_ADDRESS := b1 % 256, LENGHT := b2 % 256,
          model := b3 % 256, version := b4 % 256, features := b5 % 256 }
  | _ => .error .ERR_E220_DATA_SIZE_NOT_MATCH

/-- Response container, `struct ResponseStructContainer`: `data` is the address
the pointer holds (0 is the null pointer). -/
structure ResponseStructContainer where
  data : Nat
  rssi : Nat
  status : ResponseStatus
  deriving DecidableEq, Repr

/-- Releasing the container, `ResponseStructContainer::close`, whose body is
`free(this->data);`.  The second component is the list of addresses of the
blocks that are allocated; `free` takes the block at `data` off it and
`free(NULL)` does nothing. -/
def ResponseStructContainer.close (r : ResponseStructContainer) (allocated : List Nat) :
    ResponseStructContainer × List Nat :=
  (r, if r.data = 0 then allocated else allocated.erase r.data)

/-- A container whose `data` points to an allocated block at address 0x200. -/
def filledContainer : ResponseStructContainer :=
  { data := 0x200, rssi := 0, status := { code := .E220_SUCCESS } }

/-! ## Offsets of the members of the packed `Configuration` -/

/-- Byte offset of `ADDH` in the packed `struct Configuration`: it follows the
three one-byte members COMMAND, STARTING_ADDRESS and LENGHT. -/
def OFFSET_ADDH : Nat := 3
/-- Byte offset of `ADDL`. -/
def OFFSET_ADDL : Nat := OFFSET_ADDH + 1
/-- Byte offset of `SPED`. -/
def OFFSET_SPED : Nat := OFFSET_ADDL + 1
/-- Byte offset of `OPTION`. -/
def OFFSET_OPTION : Nat := OFFSET_SPED + sizeofBitFields Speed.bitWidths
/-- Byte offset of `CHAN`. -/
def OFFSET_CHAN : Nat := OFFSET_OPTION + sizeofBitFields OptionReg.bitWidths
/-- Byte offset of `TRANSMISSION_MODE`. -/
def OFFSET_TRANSMISSION_MODE : Nat := OFFSET_CHAN + 1
/-- Byte offset of `CRYPT`. -/
def OFFSET_CRYPT : Nat := OFFSET_TRANSMISSION_MODE + sizeofBitFields TransmissionMode.bitWidths

/-- The narrow register windows `(address, length)` of speed, transmission
mode, channel, option and crypt. -/
def registerWindows : List (Nat × Nat) :=
  [(REG_ADDRESS_SPED, PL_SPED), (REG_ADDRESS_TRANS_MODE, PL_TRANSMISSION_MODE),
    (REG_ADDRESS_CHANNEL, PL_CHANNEL), (REG_ADDRESS_OPTION, PL_OPTION),
    (REG_ADDRESS_CRYPT, PL_CRYPT)]

/-- Two windows `[address, address + length)` have no address in common. -/
def windowsDisjoint (v w : Nat × Nat) : Bool :=
  v.1 + v.2 ≤ w.1 || w.1 + w.2 ≤ v.1

/-! ## Auxiliary notions for the statements -/

/-- The decimal digits of a number below 10000, most significant first and
without leading zeros. -/
def decimalDigits (n : Nat) : List Nat :=
  if n < 10 then [n]
  else if n < 100 then [n / 10, n % 10]
  else if n < 1000 then [n / 100, n / 10 % 10, n % 10]
  else [n / 1000 % 10, n / 100 % 10, n / 10 % 10, n % 10]

/-- The decimal numeral of a number below 10000: its digits as characters. -/
def decimalNumeral (n : Nat) : String :=
  String.mk ((decimalDigits n).map Nat.digitChar)

/-- The value that a list of decimal digits, most significant first, denotes. -/
def digitsValue (ds : List Nat) : Nat :=
  ds.foldl (fun acc d => 10 * acc + d) 0

/-- An 11-byte block: a list of 11 numbers below 256. -/
def IsBlock (b : List Nat) : Prop :=
  b.length = 11 ∧ ∀ x ∈ b, x < 256

instance (b : List Nat) : Decidable (IsBlock b) := by
  unfold IsBlock; infer_instance

/-- The UART speed codes of `enum UART_BPS_TYPE` in declaration order. -/
def uartBpsCodes : List Nat :=
  [UART_BPS_1200, UART_BPS_2400, UART_BPS_4800, UART_BPS_9600, UART_BPS_19200, UART_BPS_38400,
    UART_BPS_57600, UART_BPS_115200]

/-! ## Theorems -/

/-- C1: for every `Configuration` whose members fit their declared widths,
decoding the packed byte image of `c` gives `c` back, field for field. -/
theorem decode_encode_configuration (c : Configuration) (h : c.Valid) :
    decodeConfiguration (encodeConfiguration c) = .ok c := by
  obtain ⟨h0, h1, h2, h3, h4, ⟨s1, s2, s3⟩, ⟨o1, o2, o3, o4⟩, h7,
    ⟨t1, t2, t3, t4, t5, t6⟩, k1, k2⟩ := h
  rcases c with ⟨c0, c1, c2, c3, c4, ⟨a, p, u⟩, ⟨pw, r, n, sp⟩, ch, ⟨w, r2, l, r1, f, e⟩, ⟨kh, kl⟩⟩
  simp only [encodeConfiguration, decodeConfiguration, encodeSpeed, decodeSpeed, encodeOption,
    decodeOption, encodeTransmissionMode, decodeTransmissionMode] at *
  congr 2 <;> first | omega | (congr 1 <;> omega)

/-- Witness for C1 at the configuration of the header's example. -/
theorem decode_encode_configuration_witness :
    exampleConfiguration.Valid ∧
      decodeConfiguration (encodeConfiguration exampleConfiguration) =
        .ok exampleConfiguration :=
  ⟨by decide, decode_encode_configuration exampleConfiguration (by decide)⟩

/-- C2: the packed image of every `Configuration` is 11 bytes long, the part
after the 3-byte header is `PL_CONFIGURATION = 8` bytes long, and the offsets
0..10 hold COMMAND, STARTING_ADDRESS, LENGHT, ADDH, ADDL, the Speed byte, the
Option byte, CHAN, the TransmissionMode byte, CRYPT_H, CRYPT_L in this order.
With ADDH = 0x00, ADDL = 0x01, CHAN = 23 and a zero key, bytes 3 and 4 are
0x00 and 0x01, byte 7 is 23 and bytes 9 and 10 are 0x00. -/
theorem encodeConfiguration_layout (c : Configuration) :
    (encodeConfiguration c).length = 11 ∧
      ((encodeConfiguration c).drop 3).length = PL_CONFIGURATION ∧
      (c.Valid →
        encodeConfiguration c =
          [c.COMMAND, c.STARTING_ADDRESS, c.LENGHT, c.ADDH, c.ADDL, encodeSpeed c.SPED,
            encodeOption c.OPTION, c.CHAN, encodeTransmissionMode c.TRANSMISSION_MODE,
            c.CRYPT.CRYPT_H, c.CRYPT.CRYPT_L]) ∧
      (c.ADDH = 0 → c.ADDL = 1 → c.CHAN = 23 → c.CRYPT = { CRYPT_H := 0, CRYPT_L := 0 } →
        (encodeConfiguration c)[3]? = some 0 ∧ (encodeConfiguration c)[4]? = some 1 ∧
          (encodeConfiguration c)[7]? = some 23 ∧ (encodeConfiguration c)[9]? = some 0 ∧
          (encodeConfiguration c)[10]? = some 0) := by
  refine ⟨rfl, rfl, ?_, ?_⟩
  · rintro ⟨h0, h1, h2, h3, h4, -, -, h7, -, k1, k2⟩
    simp only [encodeConfiguration]
    rw [Nat.mod_eq_of_lt h0, Nat.mod_eq_of_lt h1, Nat.mod_eq_of_lt h2, Nat.mod_eq_of_lt h3,
      Nat.mod_eq_of_lt h4, Nat.mod_eq_of_lt h7, Nat.mod_eq_of_lt k1, Nat.mod_eq_of_lt k2]
  · intro hH hL hC hK
    simp [encodeConfiguration, hH, hL, hC, hK]

/-- Witness for C2 at the configuration of the header's example, whose image
is `C1 00 08 00 01 62 00 17 43 00 00`. -/
theorem encodeConfiguration_layout_witness :
    exampleConfiguration.Valid ∧
      encodeConfiguration exampleConfiguration =
        [0xC1, 0x00, 0x08, 0x00, 0x01, 0x62, 0x00, 23, 0x43, 0x00, 0x00] ∧
      (encodeConfiguration exampleConfiguration)[7]? = some 23 :=
  ⟨by decide,
    ((encodeConfiguration_layout exampleConfiguration).2.2.1 (by decide)).trans (by decide),
    ((encodeConfiguration_layout exampleConfiguration).2.2.2 rfl rfl rfl rfl).2.2.1⟩

/-! ### The completion wait -/

/-- The completion wait only advances the clock: it keeps the bytes written. -/
theorem waitCompleteResponse_written (d : LoRa_E220) (t p : Nat) :
    (waitCompleteResponse d t p).2.written = d.written := by
  unfold waitCompleteResponse
  split
  · split <;> rfl
  · rfl

/-- The completion wait keeps the recorded mode. -/
theorem waitCompleteResponse_mode (d : LoRa_E220) (t p : Nat) :
    (waitCompleteResponse d t p).2.mode = d.mode := by
  unfold waitCompleteResponse
  split
  · split <;> rfl
  · rfl

/-- The completion wait keeps the receive buffer. -/
theorem waitCompleteResponse_buffered (d : LoRa_E220) (t p : Nat) :
    (waitCompleteResponse d t p).2.buffered = d.buffered := by
  unfold waitCompleteResponse
  split
  · split <;> rfl
  · rfl

/-- The completion wait keeps the attached module. -/
theorem waitCompleteResponse_device (d : LoRa_E220) (t p : Nat) :
    (waitCompleteResponse d t p).2.device = d.device := by
  unfold waitCompleteResponse
  split
  · split <;> rfl
  · rfl

/-- A module that signals ready completes the wait with `E220_SUCCESS`. -/
theorem waitCompleteResponse_ready (d : LoRa_E220) (t p : Nat)
    (h : signalsReady d t p = true) : (waitCompleteResponse d t p).1 = .E220_SUCCESS := by
  unfold waitCompleteResponse
  split
  · rename_i hw
    have hr : auxReadyWithin d t p = true := by
      simp only [signalsReady, Bool.or_eq_true, beq_iff_eq] at h
      rcases h with h | h
      · exact absurd h hw
      · exact h
    split
    · rfl
    · rename_i hnone
      rw [List.find?_eq_none] at hnone
      simp only [auxReadyWithin, List.any_eq_true] at hr
      obtain ⟨e, he, hready⟩ := hr
      exact absurd hready (hnone e he)
  · rfl

/-- A wired busy/ready line that never reads ready ends the wait with
`ERR_E220_TIMEOUT`. -/
theorem waitCompleteResponse_never (d : LoRa_E220) (t p : Nat) (hw : d.auxPin ≠ -1)
    (h : ∀ i, d.aux i = false) : (waitCompleteResponse d t p).1 = .ERR_E220_TIMEOUT := by
  unfold waitCompleteResponse
  rw [if_pos hw]
  split
  · rename_i e hsome
    have := List.find?_some hsome
    simp [h] at this
  · rfl

/-- The status of `sendStruct` is that of the completion wait started now. -/
theorem sendStruct_ready (d : LoRa_E220) (bytes : List Nat) (n : Nat)
    (h : signalsReady d DEFAULT_TIMEOUT DEFAULT_WAIT = true) :
    (sendStruct d bytes n).1 = .E220_SUCCESS := by
  unfold sendStruct
  apply waitCompleteResponse_ready
  simpa [signalsReady, auxReadyWithin] using h

/-- The struct `sendStruct` is given is what reaches the transport. -/
theorem sendStruct_written (d : LoRa_E220) (bytes : List Nat) (n : Nat) :
    (sendStruct d bytes n).2.written = d.written ++ bytes.take (n % 65536) := by
  unfold sendStruct
  rw [waitCompleteResponse_written]

/-- A module that does not signal ready ends the wait with `ERR_E220_TIMEOUT`. -/
theorem waitCompleteResponse_not_ready (d : LoRa_E220) (t p : Nat)
    (h : signalsReady d t p = false) : (waitCompleteResponse d t p).1 = .ERR_E220_TIMEOUT := by
  simp only [signalsReady, Bool.or_eq_false_iff, beq_eq_false_iff_ne, ne_eq] at h
  obtain ⟨hw, hr⟩ := h
  unfold waitCompleteResponse
  rw [if_pos hw]
  split
  · rename_i e hsome
    have hmem := List.mem_of_find?_eq_some hsome
    have hready := List.find?_some hsome
    have hany : auxReadyWithin d t p = true := by
      simp only [auxReadyWithin, List.any_eq_true]
      exact ⟨e, hmem, hready⟩
    rw [hany] at hr
    cases hr
  · rfl

/-- The status of the completion wait is `E220_SUCCESS` when the module signals
ready and `ERR_E220_TIMEOUT` otherwise. -/
theorem waitCompleteResponse_status_eq (d : LoRa_E220) (t p : Nat) :
    (waitCompleteResponse d t p).1 =
      if signalsReady d t p = true then .E220_SUCCESS else .ERR_E220_TIMEOUT := by
  by_cases h : signalsReady d t p = true
  · rw [if_pos h]
    exact waitCompleteResponse_ready d t p h
  · rw [if_neg h]
    exact waitCompleteResponse_not_ready d t p (by simpa using h)

/-- The status of `sendStruct` is the status of the completion wait: writing
the bytes changes neither the busy/ready line nor the clock. -/
theorem sendStruct_status (d : LoRa_E220) (bytes : List Nat) (n : Nat) :
    (sendStruct d bytes n).1 = (waitCompleteResponse d DEFAULT_TIMEOUT DEFAULT_WAIT).1 := by
  unfold sendStruct
  rw [waitCompleteResponse_status_eq, waitCompleteResponse_status_eq]
  rfl

/-! ### Messaging layer -/

/-- C3: for every payload of a length `L` that the `uint8_t` size can carry,
`sendMessage` returns `E220_SUCCESS` and has written the payload when
`L ≤ 200` and the module signals ready, and returns `ERR_E220_PACKET_TOO_BIG`
with the driver, its transport included, untouched when `L > 200`. -/
theorem sendMessage_size_limit (d : LoRa_E220) (message : List Nat) (L : Nat)
    (hlen : message.length = L) (hL : L ≤ 255) :
    (L ≤ MAX_SIZE_TX_PACKET → signalsReady d DEFAULT_TIMEOUT DEFAULT_WAIT = true →
        (sendMessage d message L).1 = .E220_SUCCESS ∧
          (sendMessage d message L).2.written = d.written ++ message) ∧
      (MAX_SIZE_TX_PACKET < L →
        sendMessage d message L = (.ERR_E220_PACKET_TOO_BIG, d) ∧
          (sendMessage d message L).2.written = d.written) := by
  have hmod : L % 256 = L := Nat.mod_eq_of_lt (by omega)
  constructor
  · intro hle hready
    have hnot : ¬ MAX_SIZE_TX_PACKET < L % 256 := by rw [hmod]; omega
    unfold sendMessage
    rw [if_neg hnot]
    refine ⟨sendStruct_ready d message _ hready, ?_⟩
    rw [sendStruct_written, hmod]
    have h2 : L % 65536 = L := Nat.mod_eq_of_lt (by omega)
    rw [h2, ← hlen, List.take_length]
  · intro hgt
    have hpos : MAX_SIZE_TX_PACKET < L % 256 := by rw [hmod]; exact hgt
    unfold sendMessage
    rw [if_pos hpos]
    exact ⟨rfl, rfl⟩

/-- Witness for C3: a 3-byte payload on a driver whose module reads ready
after 250 ms. -/
theorem sendMessage_size_limit_witness :
    [0x48, 0x69, 0x21].length = 3 ∧ 3 ≤ 255 ∧
      (sendMessage readyDriver [0x48, 0x69, 0x21] 3).1 = .E220_SUCCESS ∧
      (sendMessage readyDriver [0x48, 0x69, 0x21] 3).2.written = [0x48, 0x69, 0x21] :=
  ⟨rfl, by decide,
    (sendMessage_size_limit readyDriver [0x48, 0x69, 0x21] 3 rfl (by decide)).1
      (by decide) (by decide)⟩

/-- The frame of a fixed transmission is three bytes longer than the payload
it carries. -/
theorem fixedFrame_length (a b c : Nat) (message : List Nat) (size : Nat) :
    (fixedFrame a b c message size).length ≤ size % 256 + 3 := by
  simp only [fixedFrame, List.length_append, List.length_cons, List.length_nil,
    List.length_take]
  omega

/-- An accepted fixed transmission writes its whole frame. -/
theorem sendFixedMessage_written (d : LoRa_E220) (a b c : Nat) (message : List Nat)
    (size : Nat) (h : size % 256 + 3 ≤ MAX_SIZE_TX_PACKET) :
    (sendFixedMessage d a b c message size).2.written =
      d.written ++ fixedFrame a b c message size := by
  have hnot : ¬ MAX_SIZE_TX_PACKET < size % 256 + 3 := by omega
  unfold sendFixedMessage
  rw [if_neg hnot, sendStruct_written]
  have h1 : size % 256 < 256 := Nat.mod_lt _ (by decide)
  have h2 : (size % 256 + 3) % 65536 % 65536 = size % 256 + 3 := by omega
  rw [h2, List.take_of_length_le (fixedFrame_length a b c message size)]

/-- C4, as amended: for all address bytes, channel and payload of a length
`L ≤ 255`, `sendFixedMessage` writes exactly the frame `[ADDH, ADDL, CHAN]`
followed by the unchanged payload when `L ≤ 197`, and its status is then that
of the completion wait: `E220_SUCCESS` if the module signals ready,
`ERR_E220_TIMEOUT` if it does not, in particular when a wired busy/ready line
never reads ready; when `L > 197` it returns `ERR_E220_PACKET_TOO_BIG`, writes
nothing and leaves the driver untouched (`L + 3` is compared without wrapping
around in 8 bits). -/
theorem sendFixedMessage_size_limit (d : LoRa_E220) (ADDH ADDL CHAN : Nat)
    (message : List Nat) (L : Nat) (hH : ADDH < 256) (hA : ADDL < 256) (hC : CHAN < 256)
    (hlen : message.length = L) (hL : L ≤ 255) :
    (L ≤ 197 →
        (sendFixedMessage d ADDH ADDL CHAN message L).2.written =
            d.written ++ ADDH :: ADDL :: CHAN :: message ∧
          (sendFixedMessage d ADDH ADDL CHAN message L).1 =
            (waitCompleteResponse d DEFAULT_TIMEOUT DEFAULT_WAIT).1 ∧
          (signalsReady d DEFAULT_TIMEOUT DEFAULT_WAIT = true →
            (sendFixedMessage d ADDH ADDL CHAN message L).1 = .E220_SUCCESS) ∧
          (signalsReady d DEFAULT_TIMEOUT DEFAULT_WAIT = false →
            (sendFixedMessage d ADDH ADDL CHAN message L).1 = .ERR_E220_TIMEOUT) ∧
          (d.auxPin ≠ -1 → (∀ t, d.aux t = false) →
            (sendFixedMessage d ADDH ADDL CHAN message L).1 = .ERR_E220_TIMEOUT)) ∧
      (197 < L →
        sendFixedMessage d ADDH ADDL CHAN message L = (.ERR_E220_PACKET_TOO_BIG, d) ∧
          (sendFixedMessage d ADDH ADDL CHAN message L).2.written = d.written) := by
  have hmod : L % 256 = L := Nat.mod_eq_of_lt (by omega)
  constructor
  · intro hle
    have hnot : ¬ MAX_SIZE_TX_PACKET < L % 256 + 3 := by
      rw [hmod]; simp only [MAX_SIZE_TX_PACKET]; omega
    have hstatus : (sendFixedMessage d ADDH ADDL CHAN message L).1 =
        (waitCompleteResponse d DEFAULT_TIMEOUT DEFAULT_WAIT).1 := by
      unfold sendFixedMessage
      rw [if_neg hnot]
      exact sendStruct_status d _ _
    refine ⟨?_, hstatus, ?_, ?_, ?_⟩
    · rw [sendFixedMessage_written d ADDH ADDL CHAN message L
        (by rw [hmod]; simp only [MAX_SIZE_TX_PACKET]; omega)]
      simp only [fixedFrame, hmod]
      rw [Nat.mod_eq_of_lt hH, Nat.mod_eq_of_lt hA, Nat.mod_eq_of_lt hC, ← hlen,
        List.take_length]
      rfl
    · intro hready
      rw [hstatus]
      exact waitCompleteResponse_ready d _ _ hready
    · intro hbusy
      rw [hstatus]
      exact waitCompleteResponse_not_ready d _ _ hbusy
    · intro hw hnever
      rw [hstatus]
      exact waitCompleteResponse_never d _ _ hw hnever
  · intro hgt
    have hpos : MAX_SIZE_TX_PACKET < L % 256 + 3 := by
      rw [hmod]; simp only [MAX_SIZE_TX_PACKET]; omega
    unfold sendFixedMessage
    rw [if_pos hpos]
    exact ⟨rfl, rfl⟩

/-- Witness for C4: a 2-byte payload to address 0x0001 on channel 23, once on a
driver whose line reads ready after 250 ms and once on a driver whose wired
line never reads ready. -/
theorem sendFixedMessage_size_limit_witness :
    (0 : Nat) < 256 ∧ (1 : Nat) < 256 ∧ (23 : Nat) < 256 ∧ [0x48, 0x69].length = 2 ∧
      (sendFixedMessage readyDriver 0 1 23 [0x48, 0x69] 2).2.written =
        [0, 1, 23, 0x48, 0x69] ∧
      (sendFixedMessage readyDriver 0 1 23 [0x48, 0x69] 2).1 = .E220_SUCCESS ∧
      (sendFixedMessage busyDriver 0 1 23 [0x48, 0x69] 2).2.written =
        [0, 1, 23, 0x48, 0x69] ∧
      (sendFixedMessage busyDriver 0 1 23 [0x48, 0x69] 2).1 = .ERR_E220_TIMEOUT :=
  ⟨by decide, by decide, by decide, rfl,
    ((sendFixedMessage_size_limit readyDriver 0 1 23 [0x48, 0x69] 2 (by decide) (by decide)
      (by decide) rfl (by decide)).1 (by decide)).1,
    ((sendFixedMessage_size_limit readyDriver 0 1 23 [0x48, 0x69] 2 (by decide) (by decide)
      (by decide) rfl (by decide)).1 (by decide)).2.2.1 (by decide),
    ((sendFixedMessage_size_limit busyDriver 0 1 23 [0x48, 0x69] 2 (by decide) (by decide)
      (by decide) rfl (by decide)).1 (by decide)).1,
    ((sendFixedMessage_size_limit busyDriver 0 1 23 [0x48, 0x69] 2 (by decide) (by decide)
      (by decide) rfl (by decide)).1 (by decide)).2.2.2.2 (by decide) (fun _ => rfl)⟩

/-- C4 as stated fails: a 2-byte payload (2 ≤ 197) sent while the wired
busy/ready line never reads ready is written as the frame `[0, 1, 23]` plus
payload, yet the call returns `ERR_E220_TIMEOUT`, not success. -/
theorem sendFixedMessage_timeout_counterexample :
    [0x48, 0x69].length ≤ 197 ∧
      (sendFixedMessage busyDriver 0 1 23 [0x48, 0x69] 2).2.written =
        [0, 1, 23, 0x48, 0x69] ∧
      (sendFixedMessage busyDriver 0 1 23 [0x48, 0x69] 2).1 = .ERR_E220_TIMEOUT ∧
      (sendFixedMessage busyDriver 0 1 23 [0x48, 0x69] 2).1 ≠ .E220_SUCCESS := by
  decide

/-- C5: for every driver state (whatever module and device address it is
attached to), channel and payload, `sendBroadcastFixedMessage` gives the same
status and the same final state, bytes written included, as `sendFixedMessage`
with both address bytes 255; the frame starts with 255, 255, then the channel,
and it is what an accepted call writes. -/
theorem sendBroadcastFixedMessage_eq_fixed (d : LoRa_E220) (CHAN : Nat) (message : List Nat)
    (size : Nat) :
    sendBroadcastFixedMessage d CHAN message size =
        sendFixedMessage d 255 255 CHAN message size ∧
      BROADCAST_ADDRESS = 255 ∧
      fixedFrame BROADCAST_ADDRESS BROADCAST_ADDRESS CHAN message size =
        255 :: 255 :: CHAN % 256 :: message.take (size % 256) ∧
      (sendBroadcastFixedMessage d CHAN message size).2.written =
        if MAX_SIZE_TX_PACKET < size % 256 + 3 then d.written
        else d.written ++ 255 :: 255 :: CHAN % 256 :: message.take (size % 256) := by
  refine ⟨rfl, rfl, rfl, ?_⟩
  split
  · rename_i h
    unfold sendBroadcastFixedMessage sendFixedMessage
    rw [if_pos h]
  · rename_i h
    unfold sendBroadcastFixedMessage
    rw [sendFixedMessage_written d _ _ CHAN message size (by omega)]
    rfl

/-! ### Mode controller -/

/-- Only a request for configuration mode can fail the UART check. -/
theorem checkUARTConfiguration_other (d : LoRa_E220) (mode : MODE_TYPE)
    (h : mode ≠ .MODE_3_CONFIGURATION) : checkUARTConfiguration d mode = .E220_SUCCESS := by
  unfold checkUARTConfiguration
  rw [if_neg]
  rintro ⟨hm, -⟩
  exact h hm

/-- The completion wait answers `E220_SUCCESS` or `ERR_E220_TIMEOUT` only. -/
theorem waitCompleteResponse_status (d : LoRa_E220) (t p : Nat) :
    (waitCompleteResponse d t p).1 = .E220_SUCCESS ∨
      (waitCompleteResponse d t p).1 = .ERR_E220_TIMEOUT := by
  unfold waitCompleteResponse
  split
  · split
    · exact Or.inl rfl
    · exact Or.inr rfl
  · exact Or.inl rfl

/-- Past the UART check, `setMode` to an operating mode drives the two lines
and returns the status of the settle wait; the mode is recorded exactly on
success. -/
theorem setMode_after_check (d : LoRa_E220) (mode : MODE_TYPE) (m0 m1 : Bool)
    (hu : checkUARTConfiguration d mode = .E220_SUCCESS)
    (hp : modeSelect mode = some (m0, m1)) :
    (setMode d mode).1 =
        (waitCompleteResponse
          { d with driven := d.driven ++ [(ModePin.M0, m0), (ModePin.M1, m1)] }
          DEFAULT_TIMEOUT DEFAULT_WAIT).1 ∧
      (setMode d mode).2.mode =
        (if (setMode d mode).1 = .E220_SUCCESS then mode else d.mode) ∧
      (setMode d mode).2.device = d.device := by
  have hs := waitCompleteResponse_status
    { d with driven := d.driven ++ [(ModePin.M0, m0), (ModePin.M1, m1)] }
    DEFAULT_TIMEOUT DEFAULT_WAIT
  have hm := waitCompleteResponse_mode
    { d with driven := d.driven ++ [(ModePin.M0, m0), (ModePin.M1, m1)] }
    DEFAULT_TIMEOUT DEFAULT_WAIT
  have hd := waitCompleteResponse_device
    { d with driven := d.driven ++ [(ModePin.M0, m0), (ModePin.M1, m1)] }
    DEFAULT_TIMEOUT DEFAULT_WAIT
  unfold setMode
  rw [hu, hp]
  simp only
  split
  · rename_i hsucc
    exact ⟨hsucc.symm, by simp, hd⟩
  · rename_i hfail
    exact ⟨rfl, hm, hd⟩

/-- Every operating mode has pin levels. -/
theorem modeSelect_operating (mode : MODE_TYPE) (h : mode ≠ .MODE_INIT) :
    ∃ m0 m1, modeSelect mode = some (m0, m1) := by
  cases mode
  · exact ⟨_, _, rfl⟩
  · exact ⟨_, _, rfl⟩
  · exact ⟨_, _, rfl⟩
  · exact ⟨_, _, rfl⟩
  · exact absurd rfl h

/-- C6: at a link speed other than 9600 bps, `setMode(MODE_3_CONFIGURATION)`
returns `ERR_E220_WRONG_UART_CONFIG` and leaves the driver as it was: no
mode-select level is driven and the recorded mode is unchanged.  For every
other target mode, at any link speed, the status is never
`ERR_E220_WRONG_UART_CONFIG`. -/
theorem setMode_wrong_uart (d : LoRa_E220) (h : d.bpsRate ≠ .UART_BPS_RATE_9600) :
    setMode d .MODE_3_CONFIGURATION = (.ERR_E220_WRONG_UART_CONFIG, d) ∧
      (setMode d .MODE_3_CONFIGURATION).2.driven = d.driven ∧
      getMode (setMode d .MODE_3_CONFIGURATION).2 = getMode d ∧
      ∀ (e : LoRa_E220) (mode : MODE_TYPE), mode ≠ .MODE_3_CONFIGURATION →
        (setMode e mode).1 ≠ .ERR_E220_WRONG_UART_CONFIG := by
  have hset : setMode d .MODE_3_CONFIGURATION = (.ERR_E220_WRONG_UART_CONFIG, d) := by
    have hc : checkUARTConfiguration d .MODE_3_CONFIGURATION = .ERR_E220_WRONG_UART_CONFIG := by
      unfold checkUARTConfiguration
      rw [if_pos ⟨rfl, h⟩]
    unfold setMode
    rw [hc]
  refine ⟨hset, by rw [hset], by rw [hset], ?_⟩
  intro e mode hmode
  have hu := checkUARTConfiguration_other e mode hmode
  by_cases hi : mode = .MODE_INIT
  · subst hi
    unfold setMode
    rw [hu]
    simp [modeSelect]
  · obtain ⟨m0, m1, hp⟩ := modeSelect_operating mode hi
    rw [(setMode_after_check e mode m0 m1 hu hp).1]
    rcases waitCompleteResponse_status
      { e with driven := e.driven ++ [(ModePin.M0, m0), (ModePin.M1, m1)] }
      DEFAULT_TIMEOUT DEFAULT_WAIT with h1 | h1 <;> rw [h1] <;> decide

/-- Witness for C6: a driver at 19200 bps. -/
theorem setMode_wrong_uart_witness :
    fastDriver.bpsRate ≠ .UART_BPS_RATE_9600 ∧
      (setMode fastDriver .MODE_3_CONFIGURATION).1 = .ERR_E220_WRONG_UART_CONFIG ∧
      (setMode fastDriver .MODE_3_CONFIGURATION).2.driven = [] ∧
      (setMode fastDriver .MODE_0_NORMAL).1 ≠ .ERR_E220_WRONG_UART_CONFIG :=
  ⟨by decide, congrArg Prod.fst (setMode_wrong_uart fastDriver (by decide)).1,
    (setMode_wrong_uart fastDriver (by decide)).2.1,
    (setMode_wrong_uart fastDriver (by decide)).2.2.2 fastDriver .MODE_0_NORMAL (by decide)⟩

/-- C7: from every recorded mode and for every operating mode as target, with
the UART precondition met: if the busy/ready line reads ready within the
settle timeout, `setMode` returns `E220_SUCCESS` and `getMode` then returns the
target; if the (wired) busy/ready line never reads ready, `setMode` returns
`ERR_E220_TIMEOUT` and `getMode` returns the same mode as before the call. -/
theorem setMode_transition (d : LoRa_E220) (target : MODE_TYPE)
    (htarget : target ≠ .MODE_INIT)
    (huart : checkUARTConfiguration d target = .E220_SUCCESS) :
    (auxReadyWithin d DEFAULT_TIMEOUT DEFAULT_WAIT = true →
        (setMode d target).1 = .E220_SUCCESS ∧ getMode (setMode d target).2 = target) ∧
      (d.auxPin ≠ -1 → (∀ t, d.aux t = false) →
        (setMode d target).1 = .ERR_E220_TIMEOUT ∧
          getMode (setMode d target).2 = getMode d) := by
  obtain ⟨m0, m1, hp⟩ := modeSelect_operating target htarget
  obtain ⟨hst, hmode, -⟩ := setMode_after_check d target m0 m1 huart hp
  constructor
  · intro hready
    have hs : (setMode d target).1 = .E220_SUCCESS := by
      rw [hst]
      apply waitCompleteResponse_ready
      simp only [signalsReady, Bool.or_eq_true]
      exact Or.inr (by simpa [auxReadyWithin] using hready)
    refine ⟨hs, ?_⟩
    unfold getMode
    rw [hmode, if_pos hs]
  · intro hw hnever
    have hs : (setMode d target).1 = .ERR_E220_TIMEOUT := by
      rw [hst]
      exact waitCompleteResponse_never _ _ _ hw hnever
    refine ⟨hs, ?_⟩
    unfold getMode
    rw [hmode, hs, if_neg (by decide)]

/-- Witness for C7: from normal mode to configuration mode at 9600 bps, once
with a line that reads ready after 250 ms and once with a line that never
does. -/
theorem setMode_transition_witness :
    MODE_TYPE.MODE_3_CONFIGURATION ≠ .MODE_INIT ∧
      checkUARTConfiguration readyDriver .MODE_3_CONFIGURATION = .E220_SUCCESS ∧
      ((setMode readyDriver .MODE_3_CONFIGURATION).1 = .E220_SUCCESS ∧
        getMode (setMode readyDriver .MODE_3_CONFIGURATION).2 = .MODE_3_CONFIGURATION) ∧
      ((setMode busyDriver .MODE_3_CONFIGURATION).1 = .ERR_E220_TIMEOUT ∧
        getMode (setMode busyDriver .MODE_3_CONFIGURATION).2 = .MODE_0_NORMAL) :=
  ⟨by decide, by decide,
    (setMode_transition readyDriver .MODE_3_CONFIGURATION (by decide) (by decide)).1 (by decide),
    (setMode_transition busyDriver .MODE_3_CONFIGURATION (by decide) (by decide)).2 (by decide)
      (fun _ => rfl)⟩

/-! ### Configuration manager -/

/-- `setMode` never replaces the attached module. -/
theorem setMode_device (d : LoRa_E220) (mode : MODE_TYPE) :
    (setMode d mode).2.device = d.device := by
  unfold setMode
  split
  · split
    · rfl
    · simp only
      split
      · exact waitCompleteResponse_device _ _ _
      · exact waitCompleteResponse_device _ _ _
  · rfl

/-- Entering configuration mode never replaces the attached module. -/
theorem enterConfigurationMode_device (d : LoRa_E220) :
    (enterConfigurationMode d).2.device = d.device := by
  unfold enterConfigurationMode
  split
  · rfl
  · exact setMode_device d _

/-- After the read command the receive buffer holds the module's answer and
nothing else. -/
theorem requestConfiguration_buffered (d : LoRa_E220) :
    (requestConfiguration d).2.buffered = d.device readConfigurationCommand := by
  unfold requestConfiguration sendStruct
  rw [waitCompleteResponse_buffered]
  rfl

/-- A buffer that does not start with the acknowledgment code is never
accepted by `receiveStruct`. -/
theorem receiveStruct_wrong_head (d : LoRa_E220) (n : Nat)
    (h : d.buffered.head? ≠ some RETURNED_COMMAND) :
    ∃ e, (receiveStruct d n).1 = .error e := by
  unfold receiveStruct
  simp only
  split
  · exact ⟨_, rfl⟩
  · split
    · exact ⟨_, rfl⟩
    · split
      · exact ⟨_, rfl⟩
      · rename_i h0 _ hhead
        exfalso
        apply h
        have hhead' := not_not.mp hhead
        cases hb : d.buffered with
        | nil => rw [hb] at h0; simp at h0
        | cons b rest =>
          cases n with
          | zero => simp at h0
          | succ k => rw [hb] at hhead'; simpa using hhead'

/-- A full-length buffer that does not start with the acknowledgment code is
answered with `ERR_E220_HEAD_NOT_RECOGNIZED`. -/
theorem receiveStruct_head_not_recognized (d : LoRa_E220) (n : Nat) (hn : 0 < n)
    (hlen : n ≤ d.buffered.length) (h : d.buffered.head? ≠ some RETURNED_COMMAND) :
    (receiveStruct d n).1 = .error .ERR_E220_HEAD_NOT_RECOGNIZED := by
  have hl : (d.buffered.take n).length = n := by
    rw [List.length_take]; omega
  have hh : (d.buffered.take n).head? = d.buffered.head? := by
    cases hb : d.buffered with
    | nil => simp
    | cons b rest =>
      cases n with
      | zero => omega
      | succ k => simp
  unfold receiveStruct
  simp only
  rw [if_neg (by rw [hl]; omega), if_neg (by rw [hl]; simp), if_pos (by rw [hh]; exact h)]

/-- C8: when the module's answer to the read-configuration command does not
start with `RETURNED_COMMAND` (0xC1), `getConfiguration` returns no
Configuration; and when the exchange gets as far as receiving the 11-byte
response block (configuration mode entered, command written and completed,
at least 11 bytes answered), its status is `ERR_E220_HEAD_NOT_RECOGNIZED`. -/
theorem getConfiguration_head_not_recognized (d : LoRa_E220)
    (hhead : (d.device readConfigurationCommand).head? ≠ some RETURNED_COMMAND) :
    (getConfiguration d).1.2 = none ∧
      ((enterConfigurationMode d).1 = .E220_SUCCESS →
        (requestConfiguration (enterConfigurationMode d).2).1 = .E220_SUCCESS →
        PL_CONFIGURATION + 3 ≤ (d.device readConfigurationCommand).length →
        (getConfiguration d).1 = (.ERR_E220_HEAD_NOT_RECOGNIZED, none)) := by
  have hbuf : (requestConfiguration (enterConfigurationMode d).2).2.buffered =
      d.device readConfigurationCommand := by
    rw [requestConfiguration_buffered, enterConfigurationMode_device]
  have hhead' : (requestConfiguration (enterConfigurationMode d).2).2.buffered.head? ≠
      some RETURNED_COMMAND := by rw [hbuf]; exact hhead
  constructor
  · unfold getConfiguration
    simp only
    split
    · rfl
    · split
      · rfl
      · obtain ⟨e, he⟩ := receiveStruct_wrong_head _ (PL_CONFIGURATION + 3) hhead'
        split
        · rename_i heq
          rw [heq] at he
          cases he
        · rfl
  · intro hmode hreq hlen
    have hrecv := receiveStruct_head_not_recognized
      (requestConfiguration (enterConfigurationMode d).2).2 (PL_CONFIGURATION + 3)
      (by decide) (by rw [hbuf]; exact hlen) hhead'
    unfold getConfiguration
    simp only
    rw [if_neg (by rw [hmode]; decide), if_neg (by rw [hreq]; decide)]
    split
    · rename_i heq
      rw [heq] at hrecv
      cases hrecv
    · rename_i heq
      rw [heq] at hrecv
      cases hrecv
      rfl

/-- Witness for C8: a module that answers the read with the wrong-format
sentinel 0xFF as leading byte. -/
theorem getConfiguration_head_not_recognized_witness :
    (wrongHeadDriver.device readConfigurationCommand).head? ≠ some RETURNED_COMMAND ∧
      (getConfiguration wrongHeadDriver).1 = (.ERR_E220_HEAD_NOT_RECOGNIZED, none) :=
  ⟨by decide,
    (getConfiguration_head_not_recognized wrongHeadDriver (by decide)).2 (by decide)
      (by decide) (by decide)⟩

/-! ### Reserved bits -/

/-- A list of length 11 is an 11-byte block. -/
theorem eq_block_of_length {x : List Nat} (h : x.length = 11) :
    ∃ b0 b1 b2 b3 b4 b5 b6 b7 b8 b9 b10, x = [b0, b1, b2, b3, b4, b5, b6, b7, b8, b9, b10] := by
  rcases x with _ | ⟨b0, _ | ⟨b1, _ | ⟨b2, _ | ⟨b3, _ | ⟨b4, _ | ⟨b5, _ | ⟨b6, _ | ⟨b7, _ |
    ⟨b8, _ | ⟨b9, _ | ⟨b10, _ | ⟨b11, x⟩⟩⟩⟩⟩⟩⟩⟩⟩⟩⟩⟩
  all_goals simp only [List.length_cons, List.length_nil] at h
  all_goals first
    | omega
    | exact ⟨_, _, _, _, _, _, _, _, _, _, _, rfl⟩

/-- C9 as stated fails: a `Configuration` within its declared widths whose
reserved members are set encodes to a block whose reserved bits are set:
bits 2-4 of the Option byte read 7, bits 3 and 5 of the TransmissionMode byte
read 1. -/
theorem encode_reserved_bits_counterexample :
    reservedSetConfiguration.Valid ∧
      optionReservedBits ((encodeConfiguration reservedSetConfiguration).getD 6 0) = 7 ∧
      transmissionModeReservedBit3 ((encodeConfiguration reservedSetConfiguration).getD 8 0) = 1 ∧
      transmissionModeReservedBit5 ((encodeConfiguration reservedSetConfiguration).getD 8 0) = 1 := by
  decide

/-- C9, as amended: in the encoded block of every `Configuration` the reserved
bits carry the reserved members (bits 2-4 of the Option byte at offset 6 hold
`OPTION.reserved`, bit 3 and bit 5 of the TransmissionMode byte at offset 8
hold `reserved2` and `reserved`, each modulo its width); so all reserved bits
are zero whenever the three reserved members are zero. -/
theorem encode_reserved_bits (c : Configuration) :
    optionReservedBits ((encodeConfiguration c).getD 6 0) = c.OPTION.reserved % 8 ∧
      transmissionModeReservedBit3 ((encodeConfiguration c).getD 8 0) =
        c.TRANSMISSION_MODE.reserved2 % 2 ∧
      transmissionModeReservedBit5 ((encodeConfiguration c).getD 8 0) =
        c.TRANSMISSION_MODE.reserved % 2 ∧
      (c.OPTION.reserved = 0 → c.TRANSMISSION_MODE.reserved2 = 0 →
        c.TRANSMISSION_MODE.reserved = 0 →
        optionReservedBits ((encodeConfiguration c).getD 6 0) = 0 ∧
          transmissionModeReservedBit3 ((encodeConfiguration c).getD 8 0) = 0 ∧
          transmissionModeReservedBit5 ((encodeConfiguration c).getD 8 0) = 0) := by
  have h6 : (encodeConfiguration c).getD 6 0 = encodeOption c.OPTION := rfl
  have h8 : (encodeConfiguration c).getD 8 0 = encodeTransmissionMode c.TRANSMISSION_MODE := rfl
  rw [h6, h8]
  simp only [optionReservedBits, transmissionModeReservedBit3, transmissionModeReservedBit5,
    encodeOption, encodeTransmissionMode]
  refine ⟨by omega, by omega, by omega, ?_⟩
  intro h1 h2 h3
  rw [h1, h2, h3]
  refine ⟨by omega, by omega, by omega⟩

/-- Witness for C9 as amended, at the configuration of the header's example. -/
theorem encode_reserved_bits_witness :
    exampleConfiguration.OPTION.reserved = 0 ∧
      optionReservedBits ((encodeConfiguration exampleConfiguration).getD 6 0) = 0 ∧
      transmissionModeReservedBit3 ((encodeConfiguration exampleConfiguration).getD 8 0) = 0 ∧
      transmissionModeReservedBit5 ((encodeConfiguration exampleConfiguration).getD 8 0) = 0 :=
  ⟨rfl, (encode_reserved_bits exampleConfiguration).2.2.2 rfl rfl rfl⟩

/-- C10 as stated fails: the all-zero block and the block that differs from it
only in bit 2 of the Option byte decode to different `Configuration` values,
`OPTION.reserved` being 0 in one and 1 in the other. -/
theorem decode_reserved_bits_counterexample :
    DifferOnlyInReservedBits zeroBlock reservedBitBlock ∧
      (∃ c e, decodeConfiguration zeroBlock = .ok c ∧
        decodeConfiguration reservedBitBlock = .ok e ∧
        c.OPTION.reserved = 0 ∧ e.OPTION.reserved = 1 ∧ c ≠ e) :=
  ⟨by decide, _, _, rfl, rfl, rfl, rfl, by decide⟩

/-- C10, as amended: two 11-byte blocks that differ only in reserved bits
decode to `Configuration` values that agree in every member other than
`OPTION.reserved`, `TRANSMISSION_MODE.reserved2` and
`TRANSMISSION_MODE.reserved`; these three members hold the reserved bits of
the block they were decoded from. -/
theorem decode_differ_only_in_reserved (x y : List Nat)
    (h : DifferOnlyInReservedBits x y) :
    ∃ c e, decodeConfiguration x = .ok c ∧ decodeConfiguration y = .ok e ∧
      c.clearReserved = e.clearReserved ∧
      c.OPTION.reserved = optionReservedBits (x.getD 6 0) ∧
      c.TRANSMISSION_MODE.reserved2 = transmissionModeReservedBit3 (x.getD 8 0) ∧
      c.TRANSMISSION_MODE.reserved = transmissionModeReservedBit5 (x.getD 8 0) ∧
      e.OPTION.reserved = optionReservedBits (y.getD 6 0) ∧
      e.TRANSMISSION_MODE.reserved2 = transmissionModeReservedBit3 (y.getD 8 0) ∧
      e.TRANSMISSION_MODE.reserved = transmissionModeReservedBit5 (y.getD 8 0) := by
  obtain ⟨hx, hy, bx, bz, hclr⟩ := h
  obtain ⟨x0, x1, x2, x3, x4, x5, x6, x7, x8, x9, x10, rfl⟩ := eq_block_of_length hx
  obtain ⟨y0, y1, y2, y3, y4, y5, y6, y7, y8, y9, y10, rfl⟩ := eq_block_of_length hy
  simp only [clearReservedBits, List.cons.injEq, and_true, clearOptionReserved,
    clearTransmissionModeReserved] at hclr
  obtain ⟨rfl, rfl, rfl, rfl, rfl, rfl, h6, rfl, h8, rfl, rfl⟩ := hclr
  have b6 : x6 < 256 := bx x6 (by simp)
  have b8 : x8 < 256 := bx x8 (by simp)
  have c6 : y6 < 256 := bz y6 (by simp)
  have c8 : y8 < 256 := bz y8 (by simp)
  have o1 : x6 % 4 = y6 % 4 := by omega
  have o2 : x6 / 32 = y6 / 32 := by omega
  have o3 : x6 / 64 = y6 / 64 := by
    rw [show x6 / 64 = x6 / 32 / 2 by omega, show y6 / 64 = y6 / 32 / 2 by omega, o2]
  have t1 : x8 % 8 = y8 % 8 := by omega
  have t2 : x8 / 16 % 2 = y8 / 16 % 2 := by omega
  have t3 : x8 / 64 = y8 / 64 := by omega
  have t4 : x8 / 128 = y8 / 128 := by
    rw [show x8 / 128 = x8 / 64 / 2 by omega, show y8 / 128 = y8 / 64 / 2 by omega, t3]
  simp only [decodeConfiguration]
  refine ⟨_, _, rfl, rfl, ?_, ?_, ?_, ?_, ?_, ?_, ?_⟩
  · simp only [Configuration.clearReserved, decodeOption, decodeTransmissionMode,
      Nat.mod_eq_of_lt b6, Nat.mod_eq_of_lt b8, Nat.mod_eq_of_lt c6, Nat.mod_eq_of_lt c8,
      o1, o2, o3, t1, t2, t3, t4]
  all_goals
    simp only [decodeOption, decodeTransmissionMode, optionReservedBits,
      transmissionModeReservedBit3, transmissionModeReservedBit5, List.getD_cons_succ,
      List.getD_cons_zero, Nat.mod_eq_of_lt b6, Nat.mod_eq_of_lt b8, Nat.mod_eq_of_lt c6,
      Nat.mod_eq_of_lt c8]

/-- Witness for C10 as amended, at the all-zero block and the block with bit 2
of the Option byte set. -/
theorem decode_differ_only_in_reserved_witness :
    DifferOnlyInReservedBits zeroBlock reservedBitBlock ∧
      ∃ c e, decodeConfiguration zeroBlock = .ok c ∧
        decodeConfiguration reservedBitBlock = .ok e ∧ c.clearReserved = e.clearReserved :=
  ⟨by decide,
    let ⟨c, e, hc, he, hce, _⟩ :=
      decode_differ_only_in_reserved zeroBlock reservedBitBlock (by decide)
    ⟨c, e, hc, he, hce⟩⟩

/-! ### Register bytes -/

/-- C11: the Speed byte of every `Speed` within its declared widths is
`airDataRate + 8 * uartParity + 32 * uartBaudRate`, a byte; the map is
injective on such values and reaches every byte 0..255, `decodeSpeed` being its
inverse; air rate 0b010, parity 8N1 and baud code 0b011 encode to 0x62. -/
theorem encodeSpeed_bijection :
    (∀ s : Speed, s.Valid →
        encodeSpeed s = s.airDataRate + 8 * s.uartParity + 32 * s.uartBaudRate ∧
          encodeSpeed s < 256 ∧ decodeSpeed (encodeSpeed s) = s) ∧
      (∀ s t : Speed, s.Valid → t.Valid → encodeSpeed s = encodeSpeed t → s = t) ∧
      (∀ b, b < 256 → (decodeSpeed b).Valid ∧ encodeSpeed (decodeSpeed b) = b) ∧
      encodeSpeed
          { airDataRate := AIR_DATA_RATE_010_24, uartParity := MODE_00_8N1,
            uartBaudRate := UART_BPS_9600 } = 0x62 := by
  have hround : ∀ s : Speed, s.Valid → decodeSpeed (encodeSpeed s) = s := by
    rintro ⟨a, p, u⟩ ⟨h1, h2, h3⟩
    simp only [encodeSpeed, decodeSpeed] at *
    congr 1 <;> omega
  refine ⟨?_, ?_, ?_, by decide⟩
  · intro s hs
    refine ⟨?_, ?_, hround s hs⟩
    · obtain ⟨h1, h2, h3⟩ := hs
      simp only [encodeSpeed]
      omega
    · simp only [encodeSpeed]
      omega
  · intro s t hs ht h
    rw [← hround s hs, ← hround t ht, h]
  · intro b hb
    refine ⟨?_, ?_⟩
    · simp only [Speed.Valid, decodeSpeed]
      omega
    · simp only [encodeSpeed, decodeSpeed]
      omega

/-- Witness for C11: the default speed settings and the byte 0x62. -/
theorem encodeSpeed_bijection_witness :
    Speed.Valid { airDataRate := 2, uartParity := 0, uartBaudRate := 3 } ∧
      encodeSpeed { airDataRate := 2, uartParity := 0, uartBaudRate := 3 } = 2 + 8 * 0 + 32 * 3 ∧
      decodeSpeed 0x62 = { airDataRate := 2, uartParity := 0, uartBaudRate := 3 } :=
  ⟨by decide,
    (encodeSpeed_bijection.1 { airDataRate := 2, uartParity := 0, uartBaudRate := 3 }
      (by decide)).1,
    (encodeSpeed_bijection.1 { airDataRate := 2, uartParity := 0, uartBaudRate := 3 }
      (by decide)).2.2⟩

/-- C12: the Option byte of every `Option` value within its declared widths is
`transmissionPower + 4 * reserved + 32 * RSSIAmbientNoise + 64 *
subPacketSetting`, and each member is recovered from the byte by its shift and
mask: `% 4`, `/ 4 % 8`, `/ 32 % 2`, `/ 64 % 4`, which is what `decodeOption`
computes. -/
theorem encodeOption_layout (o : OptionReg) (h : o.Valid) :
    encodeOption o =
        o.transmissionPower + 4 * o.reserved + 32 * o.RSSIAmbientNoise +
          64 * o.subPacketSetting ∧
      encodeOption o < 256 ∧
      encodeOption o % 4 = o.transmissionPower ∧
      encodeOption o / 4 % 8 = o.reserved ∧
      encodeOption o / 32 % 2 = o.RSSIAmbientNoise ∧
      encodeOption o / 64 % 4 = o.subPacketSetting ∧
      decodeOption (encodeOption o) = o := by
  obtain ⟨p, r, n, sp⟩ := o
  obtain ⟨h1, h2, h3, h4⟩ := h
  simp only [encodeOption, decodeOption] at *
  refine ⟨by omega, by omega, by omega, by omega, by omega, by omega, ?_⟩
  congr 1 <;> omega

/-- Witness for C12: power code 1, ambient noise RSSI enabled, sub-packet code
2 encode to 0xA1. -/
theorem encodeOption_layout_witness :
    OptionReg.Valid
        { transmissionPower := 1, reserved := 0, RSSIAmbientNoise := 1, subPacketSetting := 2 } ∧
      encodeOption
          { transmissionPower := 1, reserved := 0, RSSIAmbientNoise := 1, subPacketSetting := 2 } =
        0xA1 ∧
      decodeOption 0xA1 =
        { transmissionPower := 1, reserved := 0, RSSIAmbientNoise := 1, subPacketSetting := 2 } :=
  ⟨by decide,
    (encodeOption_layout
      { transmissionPower := 1, reserved := 0, RSSIAmbientNoise := 1, subPacketSetting := 2 }
      (by decide)).1,
    (encodeOption_layout
      { transmissionPower := 1, reserved := 0, RSSIAmbientNoise := 1, subPacketSetting := 2 }
      (by decide)).2.2.2.2.2.2⟩

/-- C13: the TransmissionMode byte of every value within its declared widths is
`WORPeriod + 8 * reserved2 + 16 * enableLBT + 32 * reserved + 64 *
fixedTransmission + 128 * enableRSSI`, and each member is recovered from the
byte by its shift and mask: `% 8`, `/ 8 % 2`, `/ 16 % 2`, `/ 32 % 2`,
`/ 64 % 2`, `/ 128 % 2`, which is what `decodeTransmissionMode` computes. -/
theorem encodeTransmissionMode_layout (t : TransmissionMode) (h : t.Valid) :
    encodeTransmissionMode t =
        t.WORPeriod + 8 * t.reserved2 + 16 * t.enableLBT + 32 * t.reserved +
          64 * t.fixedTransmission + 128 * t.enableRSSI ∧
      encodeTransmissionMode t < 256 ∧
      encodeTransmissionMode t % 8 = t.WORPeriod ∧
      encodeTransmissionMode t / 8 % 2 = t.reserved2 ∧
      encodeTransmissionMode t / 16 % 2 = t.enableLBT ∧
      encodeTransmissionMode t / 32 % 2 = t.reserved ∧
      encodeTransmissionMode t / 64 % 2 = t.fixedTransmission ∧
      encodeTransmissionMode t / 128 % 2 = t.enableRSSI ∧
      decodeTransmissionMode (encodeTransmissionMode t) = t := by
  obtain ⟨w, r2, l, r, f, e⟩ := t
  obtain ⟨h1, h2, h3, h4, h5, h6⟩ := h
  simp only [encodeTransmissionMode, decodeTransmissionMode] at *
  refine ⟨by omega, by omega, by omega, by omega, by omega, by omega, by omega, by omega, ?_⟩
  congr 1 <;> omega

/-- Witness for C13: WOR period code 3 with fixed transmission encodes to
0x43. -/
theorem encodeTransmissionMode_layout_witness :
    TransmissionMode.Valid
        { WORPeriod := 3, reserved2 := 0, enableLBT := 0, reserved := 0, fixedTransmission := 1,
          enableRSSI := 0 } ∧
      encodeTransmissionMode
          { WORPeriod := 3, reserved2 := 0, enableLBT := 0, reserved := 0, fixedTransmission := 1,
            enableRSSI := 0 } = 0x43 ∧
      decodeTransmissionMode 0x43 =
        { WORPeriod := 3, reserved2 := 0, enableLBT := 0, reserved := 0, fixedTransmission := 1,
          enableRSSI := 0 } :=
  ⟨by decide,
    (encodeTransmissionMode_layout
      { WORPeriod := 3, reserved2 := 0, enableLBT := 0, reserved := 0, fixedTransmission := 1,
        enableRSSI := 0 } (by decide)).1,
    (encodeTransmissionMode_layout
      { WORPeriod := 3, reserved2 := 0, enableLBT := 0, reserved := 0, fixedTransmission := 1,
        enableRSSI := 0 } (by decide)).2.2.2.2.2.2.2.2⟩

/-! ### Enumerations and constants -/

/-- C14: for each of the four operating modes, bit 0 and bit 1 of its
`MODE_TYPE` value are the documented levels of M0 and M1 (Normal 0/0, WOR
transmitter 1/0, WOR receiver 0/1, Configuration 1/1), so the value is
`M0 + 2 * M1`; the four values are pairwise distinct and `MODE_INIT` (0xFF)
differs from all of them. -/
theorem mode_value_pin_levels :
    (modeBit0 .MODE_0_NORMAL = false ∧ modeBit1 .MODE_0_NORMAL = false) ∧
      (modeBit0 .MODE_1_WOR_TRANSMITTER = true ∧ modeBit1 .MODE_1_WOR_TRANSMITTER = false) ∧
      (modeBit0 .MODE_2_WOR_RECEIVER = false ∧ modeBit1 .MODE_2_WOR_RECEIVER = true) ∧
      (modeBit0 .MODE_3_CONFIGURATION = true ∧ modeBit1 .MODE_3_CONFIGURATION = true) ∧
      (∀ m ∈ operatingModes, modeSelect m = some (modeBit0 m, modeBit1 m)) ∧
      (∀ m ∈ operatingModes,
        m.toNat = (if modeBit0 m then 1 else 0) + 2 * (if modeBit1 m then 1 else 0)) ∧
      operatingModes.map MODE_TYPE.toNat = [0, 1, 2, 3] ∧
      (operatingModes.map MODE_TYPE.toNat).Nodup ∧
      MODE_TYPE.MODE_INIT.toNat = 0xFF ∧
      (∀ m ∈ operatingModes, m.toNat ≠ MODE_TYPE.MODE_INIT.toNat) := by
  decide

/-- C15 as stated fails: a driver created with the default arguments records
`MODE_0_NORMAL`, one of the four operating modes, not `MODE_INIT`. -/
theorem getMode_created_counterexample :
    getMode (LoRa_E220.create (-1) .UART_BPS_RATE_9600 (fun _ => false) (fun _ => [])) =
        .MODE_0_NORMAL ∧
      getMode (LoRa_E220.create (-1) .UART_BPS_RATE_9600 (fun _ => false) (fun _ => [])) ≠
        .MODE_INIT := by
  decide

/-- C15, as amended: the recorded operating mode of a newly created driver, as
`getMode` returns it before any `setMode` call, is `MODE_0_NORMAL`, the
in-class initialiser of the member `mode`; it is one of the four operating
modes and not `MODE_INIT`. -/
theorem getMode_created (auxPin : Int) (bpsRate : UART_BPS_RATE) (aux : Nat → Bool)
    (device : List Nat → List Nat) :
    (LoRa_E220.create auxPin bpsRate aux device).mode = .MODE_0_NORMAL ∧
      getMode (LoRa_E220.create auxPin bpsRate aux device) = .MODE_0_NORMAL ∧
      getMode (LoRa_E220.create auxPin bpsRate aux device) ∈ operatingModes ∧
      getMode (LoRa_E220.create auxPin bpsRate aux device) ≠ .MODE_INIT := by
  refine ⟨rfl, rfl, ?_, ?_⟩
  · show MODE_TYPE.MODE_0_NORMAL ∈ operatingModes
    decide
  · show MODE_TYPE.MODE_0_NORMAL ≠ MODE_TYPE.MODE_INIT
    decide

/-- C16: the command codes are write-persistent 0xC0, read 0xC1,
write-volatile 0xC2, wrong-format sentinel 0xFF and special configuration
0xCF; `RETURNED_COMMAND` equals the read code and differs from both write
codes and from the sentinel; a default `ConfigurationMessage`, whatever its
message, starts with the bytes 0xCF, 0xCF. -/
theorem command_codes :
    WRITE_CFG_PWR_DWN_SAVE = 0xC0 ∧ READ_CONFIGURATION = 0xC1 ∧ WRITE_CFG_PWR_DWN_LOSE = 0xC2 ∧
      WRONG_FORMAT = 0xFF ∧ SPECIAL_WIFI_CONF_COMMAND = 0xCF ∧
      RETURNED_COMMAND = READ_CONFIGURATION ∧ RETURNED_COMMAND = 0xC1 ∧
      RETURNED_COMMAND ≠ WRITE_CFG_PWR_DWN_SAVE ∧ RETURNED_COMMAND ≠ WRITE_CFG_PWR_DWN_LOSE ∧
      RETURNED_COMMAND ≠ WRONG_FORMAT ∧
      encodeConfigurationMessage {} = [0xCF, 0xCF] ∧
      (∀ message : List Nat,
        (encodeConfigurationMessage { message := message }).take 2 =
          [SPECIAL_WIFI_CONF_COMMAND, SPECIAL_WIFI_CONF_COMMAND]) := by
  refine ⟨rfl, rfl, rfl, rfl, rfl, rfl, rfl, by decide, by decide, by decide, rfl, ?_⟩
  intro message
  rfl

/-- C17: the register addresses are base 0x00, speed 0x02, transmission mode
0x03, channel 0x04, option 0x05, crypt 0x06 and product id 0x08, and the seven
are pairwise distinct. -/
theorem register_addresses :
    REG_ADDRESS_CFG = 0x00 ∧ REG_ADDRESS_SPED = 0x02 ∧ REG_ADDRESS_TRANS_MODE = 0x03 ∧
      REG_ADDRESS_CHANNEL = 0x04 ∧ REG_ADDRESS_OPTION = 0x05 ∧ REG_ADDRESS_CRYPT = 0x06 ∧
      REG_ADDRESS_PID = 0x08 ∧ registerAddresses.length = 7 ∧ registerAddresses.Nodup := by
  decide

/-- C18: each packet length is the size in bytes of the data it addresses:
`PL_SPED`, `PL_OPTION` and `PL_TRANSMISSION_MODE` are the one byte that the
bit-fields of `Speed`, `Option` and `TransmissionMode` fill (widths summing to
8), `PL_CHANNEL` is 1, `PL_CRYPT` is the 2 bytes of a `Crypt`, `PL_PID` is the 3
bytes of a `ModuleInformation` after its 3-byte header, and
`PL_CONFIGURATION` is 8, the sum of ADDH, ADDL and the five windows, which is
the length of a `Configuration` image after its 3-byte header. -/
theorem packet_lengths :
    (PL_SPED = 1 ∧ Speed.bitWidths.sum = 8 ∧ sizeofBitFields Speed.bitWidths = PL_SPED) ∧
      (PL_OPTION = 1 ∧ OptionReg.bitWidths.sum = 8 ∧
        sizeofBitFields OptionReg.bitWidths = PL_OPTION) ∧
      (PL_TRANSMISSION_MODE = 1 ∧ TransmissionMode.bitWidths.sum = 8 ∧
        sizeofBitFields TransmissionMode.bitWidths = PL_TRANSMISSION_MODE) ∧
      PL_CHANNEL = 1 ∧
      (PL_CRYPT = 2 ∧ ∀ k : Crypt, (encodeCrypt k).length = PL_CRYPT) ∧
      (PL_PID = 3 ∧ ∀ m : ModuleInformation,
        (encodeModuleInformation m).length = 3 + PL_PID ∧
          (encodeModuleInformation m).drop 3 = [m.model % 256, m.version % 256,
            m.features % 256]) ∧
      PL_CONFIGURATION = 8 ∧
      PL_CONFIGURATION =
        1 + 1 + PL_SPED + PL_OPTION + PL_CHANNEL + PL_TRANSMISSION_MODE + PL_CRYPT ∧
      (∀ c : Configuration,
        ((encodeConfiguration c).drop 3).length = PL_CONFIGURATION ∧
          (encodeConfiguration c).drop 3 =
            [c.ADDH % 256, c.ADDL % 256, encodeSpeed c.SPED, encodeOption c.OPTION,
              c.CHAN % 256, encodeTransmissionMode c.TRANSMISSION_MODE] ++
              encodeCrypt c.CRYPT) := by
  refine ⟨by decide, by decide, by decide, rfl, ⟨rfl, fun _ => rfl⟩,
    ⟨rfl, fun _ => ⟨rfl, rfl⟩⟩, rfl, by decide, fun _ => ⟨rfl, rfl⟩⟩

/-- C19: the status type has exactly the fifteen codes Success, Unknown,
NotSupported, NotImplemented, NotInitialized, InvalidParameter,
DataSizeMismatch, BufferTooSmall, Timeout, HardwareError, HeadNotRecognized,
NoResponseFromDevice, WrongUartConfig, WrongFormat, PacketTooBig, in this
order, with the pairwise distinct numeric values 1..15; Success is 1 and no
code is 0. -/
theorem status_codes :
    Status.all.length = 15 ∧ (∀ s : Status, s ∈ Status.all) ∧ Status.all.Nodup ∧
      Status.all.map Status.toNat = [1, 2, 3, 4, 5, 6, 7, 8, 9, 10, 11, 12, 13, 14, 15] ∧
      (∀ s t : Status, s.toNat = t.toNat → s = t) ∧
      Status.E220_SUCCESS.toNat = 1 ∧
      (∀ s : Status, 1 ≤ s.toNat ∧ s.toNat ≤ 15 ∧ s.toNat ≠ 0) := by
  refine ⟨rfl, ?_, by decide, rfl, ?_, rfl, ?_⟩
  · intro s
    cases s <;> decide
  · intro s t
    cases s <;> cases t <;> decide
  · intro s
    cases s <;> decide

/-- C20 fails on the code at `ERR_E220_WRONG_FORMAT`: it is a status code of the
enumeration, yet `getResponseDescriptionByParams` has no `case` for it and
answers the fallback "Invalid status!", as does
`ResponseStatus::getResponseDescription`.  Each of the other fourteen codes
gets a description other than the fallback, and these fourteen descriptions
are pairwise distinct. -/
theorem getResponseDescriptionByParams_wrong_format :
    Status.ERR_E220_WRONG_FORMAT ∈ Status.all ∧
      Status.ERR_E220_WRONG_FORMAT.toNat = 14 ∧
      getResponseDescriptionByParams Status.ERR_E220_WRONG_FORMAT.toNat = "Invalid status!" ∧
      ResponseStatus.getResponseDescription { code := .ERR_E220_WRONG_FORMAT } =
        "Invalid status!" ∧
      (∀ s ∈ Status.all, s ≠ .ERR_E220_WRONG_FORMAT →
        getResponseDescriptionByParams s.toNat ≠ "Invalid status!") ∧
      (Status.described.map fun s => getResponseDescriptionByParams s.toNat).Nodup := by
  decide

/-! ### Descriptions -/

/-- C21 holds for the values outside the enumeration and fails on the code at
14: every byte that is 0 or at least 16 is described as "Invalid status!", but
so is `ERR_E220_WRONG_FORMAT` (14), a status code, and it is the only status
code so described. -/
theorem getResponseDescriptionByParams_fallback :
    (∀ b : Nat, b = 0 ∨ 16 ≤ b → getResponseDescriptionByParams b = "Invalid status!") ∧
      (∀ s : Status,
        getResponseDescriptionByParams s.toNat = "Invalid status!" ↔
          s = .ERR_E220_WRONG_FORMAT) ∧
      getResponseDescriptionByParams 14 = "Invalid status!" := by
  refine ⟨?_, ?_, by decide⟩
  · intro b hb
    have hne : ∀ s : Status, ¬ b = s.toNat := by
      intro s
      cases s <;> simp only [Status.toNat] <;> omega
    unfold getResponseDescriptionByParams
    rw [if_neg (hne _), if_neg (hne _), if_neg (hne _), if_neg (hne _), if_neg (hne _),
      if_neg (hne _), if_neg (hne _), if_neg (hne _), if_neg (hne _), if_neg (hne _),
      if_neg (hne _), if_neg (hne _), if_neg (hne _), if_neg (hne _)]
  · intro s
    cases s <;> decide

/-- The digits of `decimalDigits` are decimal digits and denote the number. -/
theorem decimalDigits_value (n : Nat) (h : n < 10000) :
    digitsValue (decimalDigits n) = n ∧ ∀ d ∈ decimalDigits n, d < 10 := by
  unfold decimalDigits digitsValue
  split_ifs
  · simp only [List.foldl, List.mem_singleton]
    exact ⟨by omega, by intro d hd; omega⟩
  · simp only [List.foldl, List.mem_cons, List.mem_singleton, List.not_mem_nil, or_false]
    exact ⟨by omega, by rintro d (hd | hd) <;> omega⟩
  · simp only [List.foldl, List.mem_cons, List.mem_singleton, List.not_mem_nil, or_false]
    exact ⟨by omega, by rintro d (hd | hd | hd) <;> omega⟩
  · simp only [List.foldl, List.mem_cons, List.mem_singleton, List.not_mem_nil, or_false]
    exact ⟨by omega, by rintro d (hd | hd | hd | hd) <;> omega⟩

set_option maxRecDepth 100000 in
/-- The numeral printed for a channel above the base 410. -/
theorem toString_channel_410 :
    ∀ ch, ch < 256 → toString (ch + 410) = decimalNumeral (410 + ch) := by
  decide

set_option maxRecDepth 100000 in
/-- The numeral printed for a channel above the base 220. -/
theorem toString_channel_220 :
    ∀ ch, ch < 256 → toString (ch + 220) = decimalNumeral (220 + ch) := by
  decide

set_option maxRecDepth 100000 in
/-- The numeral printed for a channel above the base 850. -/
theorem toString_channel_850 :
    ∀ ch, ch < 256 → toString (ch + 850) = decimalNumeral (850 + ch) := by
  decide

set_option maxRecDepth 100000 in
/-- The numeral printed for a channel above the base 900. -/
theorem toString_channel_900 :
    ∀ ch, ch < 256 → toString (ch + 900) = decimalNumeral (900 + ch) := by
  decide

/-- C22: for every band and every channel value 0..255,
`getChannelDescription` is the decimal numeral of `B + ch` followed by "MHz",
where the digits denote the sum taken without wrap-around (`B + ch` is at most
1155); channel 255 above the default base 410 gives "665MHz" and channel 23
gives "433MHz". -/
theorem getChannelDescription_numeral (band : FrequencyBand) (c : Configuration)
    (h : c.CHAN < 256) :
    c.getChannelDescription band =
        decimalNumeral (OPERATING_FREQUENCY band + c.CHAN) ++ "MHz" ∧
      digitsValue (decimalDigits (OPERATING_FREQUENCY band + c.CHAN)) =
        OPERATING_FREQUENCY band + c.CHAN ∧
      OPERATING_FREQUENCY band + c.CHAN ≤ 1155 ∧
      OPERATING_FREQUENCY .unselected = 410 ∧
      Configuration.getChannelDescription .unselected { c with CHAN := 255 } = "665MHz" ∧
      Configuration.getChannelDescription .unselected { c with CHAN := 23 } = "433MHz" := by
  have hB : OPERATING_FREQUENCY band + c.CHAN ≤ 1155 := by
    cases band <;> simp only [OPERATING_FREQUENCY] <;> omega
  have h255 : toString (255 + 410) ++ "MHz" = "665MHz" := by decide
  have h23 : toString (23 + 410) ++ "MHz" = "433MHz" := by decide
  refine ⟨?_, (decimalDigits_value _ (by omega)).1, hB, rfl, h255, h23⟩
  unfold Configuration.getChannelDescription
  cases band
  · rw [show OPERATING_FREQUENCY .FREQUENCY_433 = 410 from rfl, toString_channel_410 _ h]
  · rw [show OPERATING_FREQUENCY .FREQUENCY_400 = 410 from rfl, toString_channel_410 _ h]
  · rw [show OPERATING_FREQUENCY .FREQUENCY_230 = 220 from rfl, toString_channel_220 _ h]
  · rw [show OPERATING_FREQUENCY .FREQUENCY_868 = 850 from rfl, toString_channel_850 _ h]
  · rw [show OPERATING_FREQUENCY .FREQUENCY_900 = 850 from rfl, toString_channel_850 _ h]
  · rw [show OPERATING_FREQUENCY .FREQUENCY_915 = 900 from rfl, toString_channel_900 _ h]
  · rw [show OPERATING_FREQUENCY .unselected = 410 from rfl, toString_channel_410 _ h]

/-- Witness for C22: channel 23 of the header's example in the 433 MHz band. -/
theorem getChannelDescription_numeral_witness :
    exampleConfiguration.CHAN < 256 ∧
      exampleConfiguration.getChannelDescription .FREQUENCY_433 = "433MHz" :=
  ⟨by decide,
    (getChannelDescription_numeral .FREQUENCY_433 exampleConfiguration (by decide)).1.trans
      (by decide)⟩

/-! ### Module information, container, register map -/

/-- C23: the packed image of every `ModuleInformation` whose members are
bytes is exactly 6 bytes holding COMMAND, STARTING_ADDRESS, LENGHT, model,
version, features in this order, and decoding that block yields the same
value; a default `ModuleInformation` has all six bytes zero. -/
theorem decode_encode_moduleInformation (m : ModuleInformation) (h : m.Valid) :
    (encodeModuleInformation m).length = 6 ∧
      encodeModuleInformation m =
        [m.COMMAND, m.STARTING_ADDRESS, m.LENGHT, m.model, m.version, m.features] ∧
      decodeModuleInformation (encodeModuleInformation m) = .ok m ∧
      encodeModuleInformation defaultModuleInformation = [0, 0, 0, 0, 0, 0] := by
  obtain ⟨h0, h1, h2, h3, h4, h5⟩ := h
  obtain ⟨c, a, l, mo, v, f⟩ := m
  simp only at h0 h1 h2 h3 h4 h5
  refine ⟨rfl, ?_, ?_, rfl⟩
  · simp only [encodeModuleInformation, Nat.mod_eq_of_lt h0, Nat.mod_eq_of_lt h1,
      Nat.mod_eq_of_lt h2, Nat.mod_eq_of_lt h3, Nat.mod_eq_of_lt h4, Nat.mod_eq_of_lt h5]
  · simp only [encodeModuleInformation, decodeModuleInformation, Nat.mod_mod,
      Nat.mod_eq_of_lt h0, Nat.mod_eq_of_lt h1, Nat.mod_eq_of_lt h2, Nat.mod_eq_of_lt h3,
      Nat.mod_eq_of_lt h4, Nat.mod_eq_of_lt h5]

/-- Witness for C23: an answer `C1 08 03 20 0A 16` of a module. -/
theorem decode_encode_moduleInformation_witness :
    ModuleInformation.Valid
        { COMMAND := 0xC1, STARTING_ADDRESS := 8, LENGHT := 3, model := 0x20, version := 0x0A,
          features := 0x16 } ∧
      decodeModuleInformation [0xC1, 8, 3, 0x20, 0x0A, 0x16] =
        .ok { COMMAND := 0xC1, STARTING_ADDRESS := 8, LENGHT := 3, model := 0x20,
              version := 0x0A, features := 0x16 } :=
  ⟨by decide,
    (decode_encode_moduleInformation
      { COMMAND := 0xC1, STARTING_ADDRESS := 8, LENGHT := 3, model := 0x20, version := 0x0A,
        features := 0x16 } (by decide)).2.2.1⟩

/-- C24 fails on the code: `close` frees the block and leaves every member of
the container as it was, so `rssi` and `status` are unchanged but `data`
still holds the address of the freed block; for a container that points to
the allocated block 0x200, `data` is 0x200 after `close`, not null, and the
block is no longer allocated. -/
theorem close_keeps_data_pointer :
    (∀ (r : ResponseStructContainer) (allocated : List Nat),
        (r.close allocated).1.rssi = r.rssi ∧ (r.close allocated).1.status = r.status ∧
          (r.close allocated).1.data = r.data) ∧
      filledContainer.data ≠ 0 ∧
      (filledContainer.close [0x200]).1.data = 0x200 ∧
      (filledContainer.close [0x200]).1.data ≠ 0 ∧
      (filledContainer.close [0x200]).2 = [] := by
  refine ⟨fun _ _ => ⟨rfl, rfl, rfl⟩, by decide, by decide, by decide, by decide⟩

/-- C25 fails on the code for two of the five windows: with ADDH at offset 0,
the members SPED, OPTION, CHAN, TRANSMISSION_MODE and CRYPT of the packed
`Configuration` lie at payload offsets 2, 3, 4, 5 and 6; the register addresses
of speed, channel and crypt equal these offsets, but `REG_ADDRESS_OPTION` is
0x05, the offset of TRANSMISSION_MODE, and `REG_ADDRESS_TRANS_MODE` is 0x03,
the offset of OPTION. -/
theorem register_address_offsets :
    (∀ c : Configuration,
        (encodeConfiguration c).getD OFFSET_ADDH 0 = c.ADDH % 256 ∧
          (encodeConfiguration c).getD OFFSET_SPED 0 = encodeSpeed c.SPED ∧
          (encodeConfiguration c).getD OFFSET_OPTION 0 = encodeOption c.OPTION ∧
          (encodeConfiguration c).getD OFFSET_CHAN 0 = c.CHAN % 256 ∧
          (encodeConfiguration c).getD OFFSET_TRANSMISSION_MODE 0 =
            encodeTransmissionMode c.TRANSMISSION_MODE ∧
          (encodeConfiguration c).drop OFFSET_CRYPT = encodeCrypt c.CRYPT) ∧
      [OFFSET_SPED - OFFSET_ADDH, OFFSET_OPTION - OFFSET_ADDH, OFFSET_CHAN - OFFSET_ADDH,
          OFFSET_TRANSMISSION_MODE - OFFSET_ADDH, OFFSET_CRYPT - OFFSET_ADDH] =
        [2, 3, 4, 5, 6] ∧
      REG_ADDRESS_SPED = OFFSET_SPED - OFFSET_ADDH ∧
      REG_ADDRESS_CHANNEL = OFFSET_CHAN - OFFSET_ADDH ∧
      REG_ADDRESS_CRYPT = OFFSET_CRYPT - OFFSET_ADDH ∧
      REG_ADDRESS_OPTION ≠ OFFSET_OPTION - OFFSET_ADDH ∧
      REG_ADDRESS_TRANS_MODE ≠ OFFSET_TRANSMISSION_MODE - OFFSET_ADDH ∧
      REG_ADDRESS_OPTION = OFFSET_TRANSMISSION_MODE - OFFSET_ADDH ∧
      REG_ADDRESS_TRANS_MODE = OFFSET_OPTION - OFFSET_ADDH := by
  refine ⟨fun _ => ⟨rfl, rfl, rfl, rfl, rfl, rfl⟩, by decide, by decide, by decide, by decide,
    by decide, by decide, by decide, by decide⟩

/-- C26: for every 11-byte block, the `Configuration` decoded from it is within
its declared widths and encodes back to the same block, so decoding is
injective on blocks and no bit, reserved bits included, is lost; the bit-field
widths of `Speed`, `Option` and `TransmissionMode` each sum to 8. -/
theorem encode_decode_configuration (b : List Nat) (h : IsBlock b) :
    (∃ c, decodeConfiguration b = .ok c ∧ c.Valid ∧ encodeConfiguration c = b) ∧
      (∀ b', IsBlock b' → decodeConfiguration b = decodeConfiguration b' → b = b') ∧
      Speed.bitWidths.sum = 8 ∧ OptionReg.bitWidths.sum = 8 ∧
      TransmissionMode.bitWidths.sum = 8 := by
  have key : ∀ x : List Nat, IsBlock x →
      ∃ c, decodeConfiguration x = .ok c ∧ c.Valid ∧ encodeConfiguration c = x := by
    rintro x ⟨hlen, hbytes⟩
    obtain ⟨x0, x1, x2, x3, x4, x5, x6, x7, x8, x9, x10, rfl⟩ := eq_block_of_length hlen
    have e0 : x0 < 256 := hbytes x0 (by simp)
    have e1 : x1 < 256 := hbytes x1 (by simp)
    have e2 : x2 < 256 := hbytes x2 (by simp)
    have e3 : x3 < 256 := hbytes x3 (by simp)
    have e4 : x4 < 256 := hbytes x4 (by simp)
    have e5 : x5 < 256 := hbytes x5 (by simp)
    have e6 : x6 < 256 := hbytes x6 (by simp)
    have e7 : x7 < 256 := hbytes x7 (by simp)
    have e8 : x8 < 256 := hbytes x8 (by simp)
    have e9 : x9 < 256 := hbytes x9 (by simp)
    have e10 : x10 < 256 := hbytes x10 (by simp)
    simp only [decodeConfiguration]
    refine ⟨_, rfl, ?_, ?_⟩
    · simp only [Configuration.Valid, Speed.Valid, OptionReg.Valid, TransmissionMode.Valid,
        Crypt.Valid, decodeSpeed, decodeOption, decodeTransmissionMode]
      omega
    · simp only [encodeConfiguration, encodeSpeed, encodeOption, encodeTransmissionMode,
        decodeSpeed, decodeOption, decodeTransmissionMode, Nat.mod_mod, Nat.mod_eq_of_lt e0,
        Nat.mod_eq_of_lt e1, Nat.mod_eq_of_lt e2, Nat.mod_eq_of_lt e3, Nat.mod_eq_of_lt e4,
        Nat.mod_eq_of_lt e5, Nat.mod_eq_of_lt e6, Nat.mod_eq_of_lt e7, Nat.mod_eq_of_lt e8,
        Nat.mod_eq_of_lt e9, Nat.mod_eq_of_lt e10]
      have s5 : x5 % 8 + 8 * (x5 / 8 % 4) + 32 * (x5 / 32 % 8) = x5 := by omega
      have s6 : x6 % 4 + 4 * (x6 / 4 % 8) + 32 * (x6 / 32 % 2) + 64 * (x6 / 64 % 4) = x6 := by
        omega
      have s8 : x8 % 8 + 8 * (x8 / 8 % 2) + 16 * (x8 / 16 % 2) + 32 * (x8 / 32 % 2) +
          64 * (x8 / 64 % 2) + 128 * (x8 / 128 % 2) = x8 := by omega
      rw [s5, s6, s8]
  refine ⟨key b h, ?_, by decide, by decide, by decide⟩
  intro b' h' heq
  obtain ⟨c, hc, -, hb⟩ := key b h
  obtain ⟨c', hc', -, hb'⟩ := key b' h'
  rw [hc, hc'] at heq
  cases heq
  rw [← hb, ← hb']

/-- Witness for C26: the block that differs from the all-zero block in bit 2
of the Option byte is recovered, reserved bit included. -/
theorem encode_decode_configuration_witness :
    IsBlock reservedBitBlock ∧
      ∃ c, decodeConfiguration reservedBitBlock = .ok c ∧ c.Valid ∧
        encodeConfiguration c = reservedBitBlock :=
  ⟨by decide, (encode_decode_configuration reservedBitBlock (by decide)).1⟩

/-! ### Register value descriptions -/

/-- Every 3-bit air data rate code has a description of its own kind. -/
theorem airDataRate_described :
    ∀ x, x < 8 → getAirDataRateDescriptionByParams x ≠ "Invalid Air Data Rate!" := by
  decide

/-- Every 2-bit parity code is described. -/
theorem uartParity_described :
    ∀ x, x < 4 → getUARTParityDescriptionByParams x ≠ "Invalid UART Parity!" := by
  decide

/-- Every 3-bit UART speed code is described. -/
theorem uartBaudRate_described :
    ∀ x, x < 8 → getUARTBaudRateDescriptionByParams x ≠ "Invalid UART Baud Rate!" := by
  decide

/-- Every 2-bit power code is described, in every variant. -/
theorem transmissionPower_described (variant : DeviceVariant) :
    ∀ x, x < 4 →
      getTransmissionPowerDescriptionByParams variant x ≠ "Invalid transmission power param" := by
  cases variant <;> decide

/-- Both values of the ambient noise flag are described. -/
theorem rssiAmbientNoise_described :
    ∀ x, x < 2 →
      getRSSIAmbientNoiseEnableByParams x ≠ "Invalid RSSI Ambient Noise enabled!" := by
  decide

/-- Every 2-bit sub-packet code is described. -/
theorem subPacketSetting_described :
    ∀ x, x < 4 → getSubPacketSettingByParams x ≠ "Invalid Sub Packet Setting!" := by
  decide

/-- Every 3-bit WOR period code is described. -/
theorem worPeriod_described :
    ∀ x, x < 8 → getWORPeriodByParams x ≠ "Invalid WOR period!" := by
  decide

/-- Both values of the LBT flag are described. -/
theorem lbtEnable_described :
    ∀ x, x < 2 → getLBTEnableByteByParams x ≠ "Invalid LBT enable byte!" := by
  decide

/-- Both values of the addressing flag are described. -/
theorem fixedTransmission_described :
    ∀ x, x < 2 →
      getFixedTransmissionDescriptionByParams x ≠ "Invalid fixed transmission param!" := by
  decide

/-- Both values of the RSSI flag are described. -/
theorem rssiEnable_described :
    ∀ x, x < 2 → getRSSIEnableByteByParams x ≠ "Invalid RSSI enable byte!" := by
  decide

/-- C27: for every `Speed`, `Option` and `TransmissionMode` value within the
declared widths, and in every device variant, none of the ten description
methods returns its "Invalid ..." fallback; in particular none does on the
registers decoded from any byte. -/
theorem descriptions_never_invalid (variant : DeviceVariant) (s : Speed) (o : OptionReg)
    (t : TransmissionMode) (hs : s.Valid) (ho : o.Valid) (ht : t.Valid) :
    (s.getAirDataRateDescription ≠ "Invalid Air Data Rate!" ∧
        s.getUARTParityDescription ≠ "Invalid UART Parity!" ∧
        s.getUARTBaudRateDescription ≠ "Invalid UART Baud Rate!" ∧
        o.getTransmissionPowerDescription variant ≠ "Invalid transmission power param" ∧
        o.getRSSIAmbientNoiseEnable ≠ "Invalid RSSI Ambient Noise enabled!" ∧
        o.getSubPacketSetting ≠ "Invalid Sub Packet Setting!" ∧
        t.getWORPeriodByParamsDescription ≠ "Invalid WOR period!" ∧
        t.getLBTEnableByteDescription ≠ "Invalid LBT enable byte!" ∧
        t.getFixedTransmissionDescription ≠ "Invalid fixed transmission param!" ∧
        t.getRSSIEnableByteDescription ≠ "Invalid RSSI enable byte!") ∧
      (∀ b : Nat, (decodeSpeed b).Valid ∧ (decodeOption b).Valid ∧
        (decodeTransmissionMode b).Valid) := by
  obtain ⟨s1, s2, s3⟩ := hs
  obtain ⟨o1, -, o3, o4⟩ := ho
  obtain ⟨t1, -, t3, -, t5, t6⟩ := ht
  refine ⟨⟨airDataRate_described _ s1, uartParity_described _ s2, uartBaudRate_described _ s3,
    transmissionPower_described variant _ o1, rssiAmbientNoise_described _ o3,
    subPacketSetting_described _ o4, worPeriod_described _ t1, lbtEnable_described _ t3,
    fixedTransmission_described _ t5, rssiEnable_described _ t6⟩, ?_⟩
  intro b
  simp only [Speed.Valid, OptionReg.Valid, TransmissionMode.Valid, decodeSpeed, decodeOption,
    decodeTransmissionMode]
  omega

/-- Witness for C27: the registers decoded from the bytes 0x62, 0x00 and 0x43
of the header's example. -/
theorem descriptions_never_invalid_witness :
    (decodeSpeed 0x62).Valid ∧ (decodeOption 0x00).Valid ∧
      (decodeTransmissionMode 0x43).Valid ∧
      (decodeSpeed 0x62).getUARTBaudRateDescription ≠ "Invalid UART Baud Rate!" ∧
      (decodeOption 0x00).getTransmissionPowerDescription .E220_30 ≠
        "Invalid transmission power param" ∧
      (decodeTransmissionMode 0x43).getWORPeriodByParamsDescription ≠ "Invalid WOR period!" :=
  ⟨by decide, by decide, by decide,
    (descriptions_never_invalid .E220_30 (decodeSpeed 0x62) (decodeOption 0x00)
      (decodeTransmissionMode 0x43) (by decide) (by decide) (by decide)).1.2.2.1,
    (descriptions_never_invalid .E220_30 (decodeSpeed 0x62) (decodeOption 0x00)
      (decodeTransmissionMode 0x43) (by decide) (by decide) (by decide)).1.2.2.2.1,
    (descriptions_never_invalid .E220_30 (decodeSpeed 0x62) (decodeOption 0x00)
      (decodeTransmissionMode 0x43) (by decide) (by decide) (by decide)).1.2.2.2.2.2.2.1⟩

/-- C28: the UART speed codes 0..7 and the baud rates 1200 .. 115200 are listed
in the same, strictly increasing order; for every code `k` in 0..7 the
description is the decimal numeral of the `k`-th rate followed by "bps", with
the suffix " (default)" for code 0b011 (9600) and for no other code; every
value above 7 yields "Invalid UART Baud Rate!". -/
theorem uartBaudRate_descriptions :
    uartBpsCodes = [0, 1, 2, 3, 4, 5, 6, 7] ∧
      uartBpsRates = [1200, 2400, 4800, 9600, 19200, 38400, 57600, 115200] ∧
      uartBpsRates.Pairwise (fun a b => a < b) ∧
      uartBpsRates.map (fun r => toString r) =
        ["1200", "2400", "4800", "9600", "19200", "38400", "57600", "115200"] ∧
      (∀ k, k < 8 →
        getUARTBaudRateDescriptionByParams k =
          toString (uartBpsRates.getD k 0) ++ "bps" ++
            (if k = UART_BPS_9600 then " (default)" else "")) ∧
      UART_BPS_9600 = 0b011 ∧ uartBpsRates.getD UART_BPS_9600 0 = 9600 ∧
      (∀ b : Nat, 7 < b → getUARTBaudRateDescriptionByParams b = "Invalid UART Baud Rate!") := by
  refine ⟨by decide, by decide, by decide, by decide, by decide, rfl, by decide, ?_⟩
  intro b hb
  unfold getUARTBaudRateDescriptionByParams
  rw [if_neg (by simp only [UART_BPS_1200]; omega), if_neg (by simp only [UART_BPS_2400]; omega),
    if_neg (by simp only [UART_BPS_4800]; omega), if_neg (by simp only [UART_BPS_9600]; omega),
    if_neg (by simp only [UART_BPS_19200]; omega), if_neg (by simp only [UART_BPS_38400]; omega),
    if_neg (by simp only [UART_BPS_57600]; omega),
    if_neg (by simp only [UART_BPS_115200]; omega)]

/-- C29 as stated fails for the 30 dBm variant: its lowest level, at power code
3, is 21 dBm, not 10 dBm, and no code of that variant is described as 10 dBm. -/
theorem transmissionPower_range_counterexample :
    getTransmissionPowerDescriptionByParams .E220_30 3 = "21dBm" ∧
      (transmissionPowerLevels .E220_30).getLast? = some 21 ∧
      10 ∉ transmissionPowerLevels .E220_30 ∧
      (∀ x, x < 4 → getTransmissionPowerDescriptionByParams .E220_30 x ≠ "10dBm") := by
  decide

/-- C29, as amended: in every device variant the power codes are 0..3 and the
description of code `k` is the `k`-th level in dBm followed by "dBm", with the
suffix " (Default)" for code 0 only; the levels strictly decrease as the code
increases, code 0 being the maximum (22, 30 and 22 dBm), and the lowest level
is 10 dBm for E220_22 and for no variant but 21 dBm for E220_30; with no
variant selected the power table and its description function are those of
E220_22. -/
theorem transmissionPower_descriptions (variant : DeviceVariant) :
    transmissionPowerCodes variant = [0, 1, 2, 3] ∧
      (∀ k, k < 4 →
        getTransmissionPowerDescriptionByParams variant k =
          toString ((transmissionPowerLevels variant).getD k 0) ++ "dBm" ++
            (if k = 0 then " (Default)" else "")) ∧
      (transmissionPowerLevels variant).Pairwise (fun a b => b < a) ∧
      (transmissionPowerLevels variant).head? =
        some (match variant with
          | .E220_22 => 22
          | .E220_30 => 30
          | .unselected => 22) ∧
      (transmissionPowerLevels variant).getLast? =
        some (match variant with
          | .E220_22 => 10
          | .E220_30 => 21
          | .unselected => 10) ∧
      transmissionPowerLevels .unselected = transmissionPowerLevels .E220_22 ∧
      transmissionPowerCodes .unselected = transmissionPowerCodes .E220_22 ∧
      (∀ p : Nat,
        getTransmissionPowerDescriptionByParams .unselected p =
          getTransmissionPowerDescriptionByParams .E220_22 p) := by
  refine ⟨?_, ?_, ?_, ?_, ?_, rfl, rfl, fun _ => rfl⟩
  · cases variant <;> decide
  · cases variant <;> decide
  · cases variant <;> decide
  · cases variant <;> rfl
  · cases variant <;> rfl

/-- C30: the narrow windows of speed, transmission mode, channel, option and
crypt are pairwise disjoint, each lies inside the full configuration window
`[REG_ADDRESS_CFG, REG_ADDRESS_CFG + PL_CONFIGURATION)`, which is `[0, 8)`, and
the product-id window starts at its end, address 8. -/
theorem register_windows :
    registerWindows = [(2, 1), (3, 1), (4, 1), (5, 1), (6, 2)] ∧
      registerWindows.Pairwise (fun v w => windowsDisjoint v w = true) ∧
      (∀ v ∈ registerWindows, ∀ w ∈ registerWindows, v ≠ w →
        ∀ a, ¬ (v.1 ≤ a ∧ a < v.1 + v.2 ∧ w.1 ≤ a ∧ a < w.1 + w.2)) ∧
      (∀ w ∈ registerWindows,
        REG_ADDRESS_CFG ≤ w.1 ∧ w.1 + w.2 ≤ REG_ADDRESS_CFG + PL_CONFIGURATION) ∧
      REG_ADDRESS_CFG = 0 ∧ REG_ADDRESS_CFG + PL_CONFIGURATION = 8 ∧
      REG_ADDRESS_PID = REG_ADDRESS_CFG + PL_CONFIGURATION := by
  refine ⟨by decide, by decide, ?_, by decide, rfl, rfl, rfl⟩
  intro v hv w hw hne a
  have hv' : v = (2, 1) ∨ v = (3, 1) ∨ v = (4, 1) ∨ v = (5, 1) ∨ v = (6, 2) := by
    simpa [registerWindows, REG_ADDRESS_SPED, REG_ADDRESS_TRANS_MODE, REG_ADDRESS_CHANNEL,
      REG_ADDRESS_OPTION, REG_ADDRESS_CRYPT, PL_SPED, PL_TRANSMISSION_MODE, PL_CHANNEL,
      PL_OPTION, PL_CRYPT] using hv
  have hw' : w = (2, 1) ∨ w = (3, 1) ∨ w = (4, 1) ∨ w = (5, 1) ∨ w = (6, 2) := by
    simpa [registerWindows, REG_ADDRESS_SPED, REG_ADDRESS_TRANS_MODE, REG_ADDRESS_CHANNEL,
      REG_ADDRESS_OPTION, REG_ADDRESS_CRYPT, PL_SPED, PL_TRANSMISSION_MODE, PL_CHANNEL,
      PL_OPTION, PL_CRYPT] using hw
  rcases hv' with rfl | rfl | rfl | rfl | rfl <;>
    rcases hw' with rfl | rfl | rfl | rfl | rfl <;>
    first
      | exact absurd rfl hne
      | (simp only; omega)

end LoRaE220
